import Mathlib

/-! Verification of `src/hash.h` (Simplicity).

A shallow embedding of the hashing composition layer of `hash.h`: the
double-hash accumulators, the multi-span `Hash` overloads, the hash writer,
the Quark cascade `HashQuark`, the scrypt functions and dispatchers, and the
Argon2d and RandomX entry points.

The primitive digest functions (`CSHA256`, `CRIPEMD160`, the `sph_*` family,
`scrypt`, `scryptHash`, `argon2d_hash_raw`, `randomx_calculate_hash`) live in
headers that are not part of `hash.h`; they are
taken as parameters of the definitions below, described only by their
interface.
-/

set_option linter.constructorNameAsVariable false

namespace Simplicity

/-! ## Bytes, fixed-size objects and spans -/

/-- One `unsigned char`. -/
abbrev Byte := Fin 256

/-- A run of bytes in memory. -/
abbrev Bytes := List Byte

/-- An object occupying exactly `n` bytes of storage. -/
abbrev Vec (n : Nat) := { b : Bytes // b.length = n }

/-- The all-zero object of `n` bytes. -/
def Vec.zero (n : Nat) : Vec n := ⟨List.replicate n 0, List.length_replicate n 0⟩

/-- Modelled from the spec: `uint160` of `uint256.h` (not part of `hash.h`), an
opaque fixed-size array of 160 bits. -/
abbrev uint160 := Vec 20

/-- Modelled from the spec: `uint256` of `uint256.h` (not part of `hash.h`), an
opaque fixed-size array of 256 bits. -/
abbrev uint256 := Vec 32

/-- Modelled from the spec: `uint512` of `uint256.h` (not part of `hash.h`), an
opaque fixed-size array of 512 bits. -/
abbrev uint512 := Vec 64

/-- The number stored in a run of bytes, least significant byte first (the
layout of `base_uint` limbs on a little-endian host). -/
def leValue : Bytes → Nat
  | [] => 0
  | b :: bs => b.val + 256 * leValue bs

/-- The `n` low-order bytes of a number, least significant byte first. -/
def leBytes : (n : Nat) → Nat → Vec n
  | 0, _ => ⟨[], rfl⟩
  | n + 1, v =>
    ⟨Fin.ofNat v :: (leBytes n (v / 256)).val, by
      have h : (leBytes n (v / 256)).val.length = n := (leBytes n (v / 256)).property
      simp [h]⟩

/-- Modelled from the spec: the constructor of `uint512` from an integer
constant (`uint256.h`, not part of `hash.h`), as in `uint512 mask = 8;`: the
512-bit value holding that number. -/
def uint512.ofNat (v : Nat) : uint512 := leBytes 64 v

/-- Modelled from the spec: `operator&` of `uint512` (`uint256.h`, not part of
`hash.h`), the bitwise AND of two 512-bit values. -/
def uint512.and (a b : uint512) : uint512 :=
  ⟨List.zipWith (fun x y => x &&& y) a.val b.val, by
    have ha : a.val.length = 64 := a.property
    have hb : b.val.length = 64 := b.property
    simp [List.length_zipWith, ha, hb]⟩

/-- Modelled from the spec: `uint512::trim256` of `uint256.h` (not part of
`hash.h`), which keeps the low 256 bits of the 512-bit value; with the
least significant byte first these are the first 32 bytes. -/
def trim256 (h : uint512) : uint256 :=
  ⟨h.val.take 32, by
    have h64 : h.val.length = 64 := h.property
    simp [List.length_take, h64]⟩

/-- Writing `out` through a pointer cast to the start of the object `obj`
(`(unsigned char*)&result`): the leading bytes of the object are replaced,
the bytes after them keep their value. -/
def writeInto {n : Nat} (obj : Vec n) (out : Bytes) : Vec n :=
  ⟨(out ++ obj.val.drop out.length).take n, by
    have hn : obj.val.length = n := obj.property
    simp only [List.length_take, List.length_append, List.length_drop, hn]
    omega⟩

/-- `static const unsigned char PBLANK[1] = {};` -/
def PBLANK : Bytes := [0]

/-- `static const uint256 ZERO = uint256(0);` -/
def ZERO : uint256 := Vec.zero 32

/-- A data pointer handed to a primitive: either `sentinel`, the address of
`PBLANK`, or `elem0`, the address `&pbegin[0]` of the first element of the
caller's range, together with the memory that can be read from that address
on. -/
inductive Ptr where
  | sentinel : Ptr
  | elem0 (mem : Bytes) : Ptr
deriving DecidableEq

/-- The `len` bytes a primitive reads through a data pointer. -/
def Ptr.read : Ptr → Nat → Bytes
  | Ptr.sentinel, len => PBLANK.take len
  | Ptr.elem0 mem, len => mem.take len

/-- An iterator range `[pbegin, pend)` over a contiguous container:
`elemSize` is `sizeof(pbegin[0])`, `count` is `pend - pbegin`, and `mem` is the
memory found at `&pbegin[0]`, which may extend beyond `pend`. -/
structure Span where
  elemSize : Nat
  count : Nat
  mem : Bytes
deriving DecidableEq

/-- The pointer argument `pbegin == pend ? PBLANK : &pbegin[0]`. -/
def Span.data (s : Span) : Ptr :=
  if s.count = 0 then Ptr.sentinel else Ptr.elem0 s.mem

/-- The length argument `(pend - pbegin) * sizeof(pbegin[0])`. A range lies
inside one object, so the product stays within `size_t` and does not wrap. -/
def Span.len (s : Span) : Nat := s.count * s.elemSize

/-- The bytes a primitive is handed for a span: `len` bytes read at `data`. -/
def Span.bytes (s : Span) : Bytes := s.data.read s.len

/-- The range `v.begin(), v.end()` of a `std::vector<unsigned char>`. -/
def Span.ofVector (v : Bytes) : Span := ⟨1, v.length, v⟩

/-! ## The `sph_*` 512-bit primitives and the Quark cascade -/

/-- The interface of one `sph_*512` primitive (`crypto/sph_*.h`, not part of
`hash.h`): `init` is the context left by `sph_X512_init`, `update` is
`sph_X512(&ctx, data, len)` on the bytes read, and `close` gives the 64 bytes
that `sph_X512_close(&ctx, dst)` stores at `dst`. -/
structure Sph512 where
  Ctx : Type
  init : Ctx
  update : Ctx → Bytes → Ctx
  close : Ctx → uint512

/-- The digest of a byte string under one `sph_*512` primitive: init, one
update over the whole string, close. -/
def Sph512.digest (H : Sph512) (m : Bytes) : uint512 :=
  H.close (H.update H.init m)

/-- The six 512-bit primitives `HashQuark` is written over. -/
structure SphTable where
  blake512 : Sph512
  bmw512 : Sph512
  groestl512 : Sph512
  jh512 : Sph512
  keccak512 : Sph512
  skein512 : Sph512

/-- The 64 bytes a primitive reads from `&hash[i]` with length 64. -/
def uint512.read64 (h : uint512) : Bytes := (Ptr.elem0 h.val).read 64

/-- The local array `uint512 hash[9]` at the end of `HashQuark`, just before
`return hash[8].trim256()`. -/
def HashQuark.stages (T : SphTable) (s : Span) : Fin 9 → uint512 :=
  let mask : uint512 := uint512.ofNat 8
  let zero : uint512 := uint512.ofNat 0
  let hash : Fin 9 → uint512 := fun _ => Vec.zero 64
  let ctx_blake := T.blake512.init
  let ctx_blake := T.blake512.update ctx_blake (s.data.read s.len)
  let hash := Function.update hash 0 (T.blake512.close ctx_blake)
  let ctx_bmw := T.bmw512.init
  let ctx_bmw := T.bmw512.update ctx_bmw (hash 0).read64
  let hash := Function.update hash 1 (T.bmw512.close ctx_bmw)
  let hash :=
    if uint512.and (hash 1) mask ≠ zero then
      let ctx_groestl := T.groestl512.init
      let ctx_groestl := T.groestl512.update ctx_groestl (hash 1).read64
      Function.update hash 2 (T.groestl512.close ctx_groestl)
    else
      let ctx_skein := T.skein512.init
      let ctx_skein := T.skein512.update ctx_skein (hash 1).read64
      Function.update hash 2 (T.skein512.close ctx_skein)
  let ctx_groestl := T.groestl512.init
  let ctx_groestl := T.groestl512.update ctx_groestl (hash 2).read64
  let hash := Function.update hash 3 (T.groestl512.close ctx_groestl)
  let ctx_jh := T.jh512.init
  let ctx_jh := T.jh512.update ctx_jh (hash 3).read64
  let hash := Function.update hash 4 (T.jh512.close ctx_jh)
  let hash :=
    if uint512.and (hash 4) mask ≠ zero then
      let ctx_blake := T.blake512.init
      let ctx_blake := T.blake512.update ctx_blake (hash 4).read64
      Function.update hash 5 (T.blake512.close ctx_blake)
    else
      let ctx_bmw := T.bmw512.init
      let ctx_bmw := T.bmw512.update ctx_bmw (hash 4).read64
      Function.update hash 5 (T.bmw512.close ctx_bmw)
  let ctx_keccak := T.keccak512.init
  let ctx_keccak := T.keccak512.update ctx_keccak (hash 5).read64
  let hash := Function.update hash 6 (T.keccak512.close ctx_keccak)
  let ctx_skein := T.skein512.init
  let ctx_skein := T.skein512.update ctx_skein (hash 6).read64
  let hash := Function.update hash 7 (T.skein512.close ctx_skein)
  let hash :=
    if uint512.and (hash 7) mask ≠ zero then
      let ctx_keccak := T.keccak512.init
      let ctx_keccak := T.keccak512.update ctx_keccak (hash 7).read64
      Function.update hash 8 (T.keccak512.close ctx_keccak)
    else
      let ctx_jh := T.jh512.init
      let ctx_jh := T.jh512.update ctx_jh (hash 7).read64
      Function.update hash 8 (T.jh512.close ctx_jh)
  hash

/-- `HashQuark(pbegin, pend)`: the cascade, returning `hash[8].trim256()`. -/
def HashQuark (T : SphTable) (s : Span) : uint256 :=
  trim256 (HashQuark.stages T s 8)

/-- The names of the six 512-bit primitives. -/
inductive SphAlgo where
  | blake512 : SphAlgo
  | bmw512 : SphAlgo
  | groestl512 : SphAlgo
  | jh512 : SphAlgo
  | keccak512 : SphAlgo
  | skein512 : SphAlgo
deriving DecidableEq

/-- One call into a 512-bit primitive: `sph_X512_init(&ctx)`,
`sph_X512(&ctx, data, len)` with its length, or `sph_X512_close(&ctx,
&hash[slot])` with the slot it fills. -/
inductive SphCall where
  | init (X : SphAlgo) : SphCall
  | update (X : SphAlgo) (len : Nat) : SphCall
  | close (X : SphAlgo) (slot : Fin 9) : SphCall
deriving DecidableEq

/-- The call is an `sph_X512_init`. -/
def SphCall.isInit : SphCall → Bool
  | SphCall.init _ => true
  | _ => false

/-- The call is an update `sph_X512`. -/
def SphCall.isUpdate : SphCall → Bool
  | SphCall.update _ _ => true
  | _ => false

/-- The call is an `sph_X512_close`. -/
def SphCall.isClose : SphCall → Bool
  | SphCall.close _ _ => true
  | _ => false

/-- One invocation of a primitive as `HashQuark` writes it: init, one update
of `len` bytes, close into `hash[slot]`. -/
def SphCall.invocation (X : SphAlgo) (len : Nat) (slot : Fin 9) : List SphCall :=
  [SphCall.init X, SphCall.update X len, SphCall.close X slot]

/-- The body of `HashQuark` once more, statement by statement, now also
recording every call into a primitive: the array `hash[9]` before the final
`return`, and the calls made, in order. -/
def HashQuark.run (T : SphTable) (s : Span) : (Fin 9 → uint512) × List SphCall :=
  let mask : uint512 := uint512.ofNat 8
  let zero : uint512 := uint512.ofNat 0
  let hash : Fin 9 → uint512 := fun _ => Vec.zero 64
  let log : List SphCall := []
  let ctx_blake := T.blake512.init
  let log := log ++ [SphCall.init SphAlgo.blake512]
  let ctx_blake := T.blake512.update ctx_blake (s.data.read s.len)
  let log := log ++ [SphCall.update SphAlgo.blake512 s.len]
  let hash := Function.update hash 0 (T.blake512.close ctx_blake)
  let log := log ++ [SphCall.close SphAlgo.blake512 0]
  let ctx_bmw := T.bmw512.init
  let log := log ++ [SphCall.init SphAlgo.bmw512]
  let ctx_bmw := T.bmw512.update ctx_bmw (hash 0).read64
  let log := log ++ [SphCall.update SphAlgo.bmw512 64]
  let hash := Function.update hash 1 (T.bmw512.close ctx_bmw)
  let log := log ++ [SphCall.close SphAlgo.bmw512 1]
  let r :=
    if uint512.and (hash 1) mask ≠ zero then
      let ctx_groestl := T.groestl512.init
      let log := log ++ [SphCall.init SphAlgo.groestl512]
      let ctx_groestl := T.groestl512.update ctx_groestl (hash 1).read64
      let log := log ++ [SphCall.update SphAlgo.groestl512 64]
      let hash := Function.update hash 2 (T.groestl512.close ctx_groestl)
      let log := log ++ [SphCall.close SphAlgo.groestl512 2]
      (hash, log)
    else
      let ctx_skein := T.skein512.init
      let log := log ++ [SphCall.init SphAlgo.skein512]
      let ctx_skein := T.skein512.update ctx_skein (hash 1).read64
      let log := log ++ [SphCall.update SphAlgo.skein512 64]
      let hash := Function.update hash 2 (T.skein512.close ctx_skein)
      let log := log ++ [SphCall.close SphAlgo.skein512 2]
      (hash, log)
  let hash := r.1
  let log := r.2
  let ctx_groestl := T.groestl512.init
  let log := log ++ [SphCall.init SphAlgo.groestl512]
  let ctx_groestl := T.groestl512.update ctx_groestl (hash 2).read64
  let log := log ++ [SphCall.update SphAlgo.groestl512 64]
  let hash := Function.update hash 3 (T.groestl512.close ctx_groestl)
  let log := log ++ [SphCall.close SphAlgo.groestl512 3]
  let ctx_jh := T.jh512.init
  let log := log ++ [SphCall.init SphAlgo.jh512]
  let ctx_jh := T.jh512.update ctx_jh (hash 3).read64
  let log := log ++ [SphCall.update SphAlgo.jh512 64]
  let hash := Function.update hash 4 (T.jh512.close ctx_jh)
  let log := log ++ [SphCall.close SphAlgo.jh512 4]
  let r :=
    if uint512.and (hash 4) mask ≠ zero then
      let ctx_blake := T.blake512.init
      let log := log ++ [SphCall.init SphAlgo.blake512]
      let ctx_blake := T.blake512.update ctx_blake (hash 4).read64
      let log := log ++ [SphCall.update SphAlgo.blake512 64]
      let hash := Function.update hash 5 (T.blake512.close ctx_blake)
      let log := log ++ [SphCall.close SphAlgo.blake512 5]
      (hash, log)
    else
      let ctx_bmw := T.bmw512.init
      let log := log ++ [SphCall.init SphAlgo.bmw512]
      let ctx_bmw := T.bmw512.update ctx_bmw (hash 4).read64
      let log := log ++ [SphCall.update SphAlgo.bmw512 64]
      let hash := Function.update hash 5 (T.bmw512.close ctx_bmw)
      let log := log ++ [SphCall.close SphAlgo.bmw512 5]
      (hash, log)
  let hash := r.1
  let log := r.2
  let ctx_keccak := T.keccak512.init
  let log := log ++ [SphCall.init SphAlgo.keccak512]
  let ctx_keccak := T.keccak512.update ctx_keccak (hash 5).read64
  let log := log ++ [SphCall.update SphAlgo.keccak512 64]
  let hash := Function.update hash 6 (T.keccak512.close ctx_keccak)
  let log := log ++ [SphCall.close SphAlgo.keccak512 6]
  let ctx_skein := T.skein512.init
  let log := log ++ [SphCall.init SphAlgo.skein512]
  let ctx_skein := T.skein512.update ctx_skein (hash 6).read64
  let log := log ++ [SphCall.update SphAlgo.skein512 64]
  let hash := Function.update hash 7 (T.skein512.close ctx_skein)
  let log := log ++ [SphCall.close SphAlgo.skein512 7]
  let r :=
    if uint512.and (hash 7) mask ≠ zero then
      let ctx_keccak := T.keccak512.init
      let log := log ++ [SphCall.init SphAlgo.keccak512]
      let ctx_keccak := T.keccak512.update ctx_keccak (hash 7).read64
      let log := log ++ [SphCall.update SphAlgo.keccak512 64]
      let hash := Function.update hash 8 (T.keccak512.close ctx_keccak)
      let log := log ++ [SphCall.close SphAlgo.keccak512 8]
      (hash, log)
    else
      let ctx_jh := T.jh512.init
      let log := log ++ [SphCall.init SphAlgo.jh512]
      let ctx_jh := T.jh512.update ctx_jh (hash 7).read64
      let log := log ++ [SphCall.update SphAlgo.jh512 64]
      let hash := Function.update hash 8 (T.jh512.close ctx_jh)
      let log := log ++ [SphCall.close SphAlgo.jh512 8]
      (hash, log)
  let hash := r.1
  let log := r.2
  (hash, log)

/-! ## The streaming hasher classes and the double-hash accumulators -/

/-- The interface of one hasher class of `crypto/` (`CSHA256`, `CSHA1`,
`CSHA512`, `CRIPEMD160`; their headers are not part of `hash.h`): `init` is
the default-constructed object, `Write` absorbs the bytes read from
`(data, len)`, `Finalize` gives the `OUTPUT_SIZE` bytes stored in its argument
together with the object it leaves behind, `Reset` is `Reset()`. -/
structure Hasher (OUTPUT_SIZE : Nat) where
  State : Type
  init : State
  Write : State → Bytes → State
  Finalize : State → Vec OUTPUT_SIZE × State
  Reset : State → State

/-- The one-shot digest of a byte string under a hasher class:
`X().Write(m, len).Finalize(out)`. -/
def Hasher.digest {n : Nat} (P : Hasher n) (m : Bytes) : Vec n :=
  (P.Finalize (P.Write P.init m)).1

/-- The hasher is streaming: writing `a` then `b` leaves the same state as
writing `a ++ b`. -/
def Hasher.Streaming {n : Nat} (P : Hasher n) : Prop :=
  ∀ (s : P.State) (a b : Bytes), P.Write (P.Write s a) b = P.Write s (a ++ b)

/-- A write of zero bytes leaves the state unchanged. -/
def Hasher.WriteNil {n : Nat} (P : Hasher n) : Prop :=
  ∀ s : P.State, P.Write s [] = s

/-- The call `Reset()` brings any state back to the default-constructed one. -/
def Hasher.ResetInit {n : Nat} (P : Hasher n) : Prop :=
  ∀ s : P.State, P.Reset s = P.init

/-- What the accumulators rely on in a hasher class: it is streaming, a write of
zero bytes changes nothing, and `Reset()` restores the initial state. -/
def Hasher.Contract {n : Nat} (P : Hasher n) : Prop :=
  P.Streaming ∧ P.WriteNil ∧ P.ResetInit

/-- The bytes handed over by a sequence of `Write(data, len)` calls, in order. -/
def writtenBytes (ws : List (Ptr × Nat)) : Bytes :=
  (ws.map (fun w => w.1.read w.2)).flatten

/-- Modelled from the spec: `CSHA256::OUTPUT_SIZE` of `crypto/sha256.h` (not
part of `hash.h`), the byte width of the 256-bit digest. -/
def CSHA256.OUTPUT_SIZE : Nat := 32

/-- Modelled from the spec: `CSHA1::OUTPUT_SIZE` of `crypto/sha1.h` (not part
of `hash.h`), the byte width of the 160-bit digest. -/
def CSHA1.OUTPUT_SIZE : Nat := 20

/-- Modelled from the spec: `CSHA512::OUTPUT_SIZE` of `crypto/sha512.h` (not
part of `hash.h`), the byte width of the 512-bit digest. -/
def CSHA512.OUTPUT_SIZE : Nat := 64

/-- Modelled from the spec: `CRIPEMD160::OUTPUT_SIZE` of `crypto/ripemd160.h`
(not part of `hash.h`), the byte width of the 160-bit digest. -/
def CRIPEMD160.OUTPUT_SIZE : Nat := 20

/-- `CHash256::OUTPUT_SIZE`. -/
def CHash256.OUTPUT_SIZE : Nat := CSHA256.OUTPUT_SIZE

/-- `CHash256::Finalize`; the state of a `CHash256` is its member `sha`. -/
def CHash256.Finalize (sha : Hasher CSHA256.OUTPUT_SIZE) (self : sha.State) :
    Vec CHash256.OUTPUT_SIZE × sha.State :=
  let (buf, self) := sha.Finalize self
  let self := sha.Reset self
  let self := sha.Write self ((Ptr.elem0 buf.val).read CSHA256.OUTPUT_SIZE)
  sha.Finalize self

/-- `CHash256::Write`. -/
def CHash256.Write (sha : Hasher CSHA256.OUTPUT_SIZE) (self : sha.State)
    (data : Ptr) (len : Nat) : sha.State :=
  sha.Write self (data.read len)

/-- `CHash256::Reset`. -/
def CHash256.Reset (sha : Hasher CSHA256.OUTPUT_SIZE) (self : sha.State) : sha.State :=
  sha.Reset self

/-- `CHash1::OUTPUT_SIZE`. -/
def CHash1.OUTPUT_SIZE : Nat := CSHA1.OUTPUT_SIZE

/-- `CHash1::Finalize`; the state of a `CHash1` is its member `sha`. -/
def CHash1.Finalize (sha : Hasher CSHA1.OUTPUT_SIZE) (self : sha.State) :
    Vec CHash1.OUTPUT_SIZE × sha.State :=
  let (buf, self) := sha.Finalize self
  let self := sha.Reset self
  let self := sha.Write self ((Ptr.elem0 buf.val).read CSHA1.OUTPUT_SIZE)
  sha.Finalize self

/-- `CHash1::Write`. -/
def CHash1.Write (sha : Hasher CSHA1.OUTPUT_SIZE) (self : sha.State)
    (data : Ptr) (len : Nat) : sha.State :=
  sha.Write self (data.read len)

/-- `CHash1::Reset`. -/
def CHash1.Reset (sha : Hasher CSHA1.OUTPUT_SIZE) (self : sha.State) : sha.State :=
  sha.Reset self

/-- `CHash512::OUTPUT_SIZE`. -/
def CHash512.OUTPUT_SIZE : Nat := CSHA512.OUTPUT_SIZE

/-- `CHash512::Finalize`; the state of a `CHash512` is its member `sha`. -/
def CHash512.Finalize (sha : Hasher CSHA512.OUTPUT_SIZE) (self : sha.State) :
    Vec CHash512.OUTPUT_SIZE × sha.State :=
  let (buf, self) := sha.Finalize self
  let self := sha.Reset self
  let self := sha.Write self ((Ptr.elem0 buf.val).read CSHA512.OUTPUT_SIZE)
  sha.Finalize self

/-- `CHash512::Write`. -/
def CHash512.Write (sha : Hasher CSHA512.OUTPUT_SIZE) (self : sha.State)
    (data : Ptr) (len : Nat) : sha.State :=
  sha.Write self (data.read len)

/-- `CHash512::Reset`. -/
def CHash512.Reset (sha : Hasher CSHA512.OUTPUT_SIZE) (self : sha.State) : sha.State :=
  sha.Reset self

/-- `CHash160::OUTPUT_SIZE`. -/
def CHash160.OUTPUT_SIZE : Nat := CRIPEMD160.OUTPUT_SIZE

/-- `CHash160::Finalize`; the state of a `CHash160` is its member `sha`, and
`CRIPEMD160()` is a default-constructed temporary. -/
def CHash160.Finalize (sha : Hasher CSHA256.OUTPUT_SIZE)
    (ripemd : Hasher CRIPEMD160.OUTPUT_SIZE) (self : sha.State) :
    Vec CHash160.OUTPUT_SIZE × sha.State :=
  let (buf, self) := sha.Finalize self
  let tmp := ripemd.init
  let tmp := ripemd.Write tmp ((Ptr.elem0 buf.val).read CSHA256.OUTPUT_SIZE)
  ((ripemd.Finalize tmp).1, self)

/-- `CHash160::Write`. -/
def CHash160.Write (sha : Hasher CSHA256.OUTPUT_SIZE) (self : sha.State)
    (data : Ptr) (len : Nat) : sha.State :=
  sha.Write self (data.read len)

/-- `CHash160::Reset`. -/
def CHash160.Reset (sha : Hasher CSHA256.OUTPUT_SIZE) (self : sha.State) : sha.State :=
  sha.Reset self

/-! ## The span hashers

Every `result` below is a default-constructed `uint256` / `uint512` /
`uint160`, all bytes zero, which `Finalize((unsigned char*)&result)` then
overwrites from its first byte on. -/

/-- `Hash512(pbegin, pend)`: the 512-bit hash of an object. -/
def Hash512 (sha : Hasher CSHA512.OUTPUT_SIZE) (p : Span) : uint512 :=
  let result : uint512 := Vec.zero _
  let h := sha.init
  let h := CHash512.Write sha h p.data p.len
  let (hash, _) := CHash512.Finalize sha h
  writeInto result hash.val

/-- `Hash512(p1begin, p1end, p2begin, p2end)`: the 512-bit hash of the
concatenation of two objects. -/
def Hash512_2 (sha : Hasher CSHA512.OUTPUT_SIZE) (p1 p2 : Span) : uint512 :=
  let result : uint512 := Vec.zero _
  let h := sha.init
  let h := CHash512.Write sha h p1.data p1.len
  let h := CHash512.Write sha h p2.data p2.len
  let (hash, _) := CHash512.Finalize sha h
  writeInto result hash.val

/-- `Hash1(pbegin, pend)`: the 160-bit hash of an object, returned in a
`uint256`. -/
def Hash1 (sha : Hasher CSHA1.OUTPUT_SIZE) (p : Span) : uint256 :=
  let result : uint256 := Vec.zero _
  let h := sha.init
  let h := CHash1.Write sha h p.data p.len
  let (hash, _) := CHash1.Finalize sha h
  writeInto result hash.val

/-- `Hash1(p1begin, p1end, p2begin, p2end)`: the 160-bit hash of the
concatenation of two objects, returned in a `uint256`. -/
def Hash1_2 (sha : Hasher CSHA1.OUTPUT_SIZE) (p1 p2 : Span) : uint256 :=
  let result : uint256 := Vec.zero _
  let h := sha.init
  let h := CHash1.Write sha h p1.data p1.len
  let h := CHash1.Write sha h p2.data p2.len
  let (hash, _) := CHash1.Finalize sha h
  writeInto result hash.val

/-- `Hash(pbegin, pend)`: the 256-bit hash of an object. -/
def Hash (sha : Hasher CSHA256.OUTPUT_SIZE) (p : Span) : uint256 :=
  let result : uint256 := Vec.zero _
  let h := sha.init
  let h := CHash256.Write sha h p.data p.len
  let (hash, _) := CHash256.Finalize sha h
  writeInto result hash.val

/-- `Hash` over two ranges: the 256-bit hash of the concatenation of
two objects. -/
def Hash_2 (sha : Hasher CSHA256.OUTPUT_SIZE) (p1 p2 : Span) : uint256 :=
  let result : uint256 := Vec.zero _
  let h := sha.init
  let h := CHash256.Write sha h p1.data p1.len
  let h := CHash256.Write sha h p2.data p2.len
  let (hash, _) := CHash256.Finalize sha h
  writeInto result hash.val

/-- `Hash` over three ranges: the 256-bit hash of the concatenation of
three objects. -/
def Hash_3 (sha : Hasher CSHA256.OUTPUT_SIZE) (p1 p2 p3 : Span) : uint256 :=
  let result : uint256 := Vec.zero _
  let h := sha.init
  let h := CHash256.Write sha h p1.data p1.len
  let h := CHash256.Write sha h p2.data p2.len
  let h := CHash256.Write sha h p3.data p3.len
  let (hash, _) := CHash256.Finalize sha h
  writeInto result hash.val

/-- `Hash` over four ranges: the 256-bit hash of the concatenation of
four objects. -/
def Hash_4 (sha : Hasher CSHA256.OUTPUT_SIZE) (p1 p2 p3 p4 : Span) : uint256 :=
  let result : uint256 := Vec.zero _
  let h := sha.init
  let h := CHash256.Write sha h p1.data p1.len
  let h := CHash256.Write sha h p2.data p2.len
  let h := CHash256.Write sha h p3.data p3.len
  let h := CHash256.Write sha h p4.data p4.len
  let (hash, _) := CHash256.Finalize sha h
  writeInto result hash.val

/-- `Hash` over five ranges: the 256-bit hash of the concatenation of
five objects. -/
def Hash_5 (sha : Hasher CSHA256.OUTPUT_SIZE) (p1 p2 p3 p4 p5 : Span) : uint256 :=
  let result : uint256 := Vec.zero _
  let h := sha.init
  let h := CHash256.Write sha h p1.data p1.len
  let h := CHash256.Write sha h p2.data p2.len
  let h := CHash256.Write sha h p3.data p3.len
  let h := CHash256.Write sha h p4.data p4.len
  let h := CHash256.Write sha h p5.data p5.len
  let (hash, _) := CHash256.Finalize sha h
  writeInto result hash.val

/-- `Hash` over six ranges: the 256-bit hash of the concatenation of
six objects. -/
def Hash_6 (sha : Hasher CSHA256.OUTPUT_SIZE) (p1 p2 p3 p4 p5 p6 : Span) : uint256 :=
  let result : uint256 := Vec.zero _
  let h := sha.init
  let h := CHash256.Write sha h p1.data p1.len
  let h := CHash256.Write sha h p2.data p2.len
  let h := CHash256.Write sha h p3.data p3.len
  let h := CHash256.Write sha h p4.data p4.len
  let h := CHash256.Write sha h p5.data p5.len
  let h := CHash256.Write sha h p6.data p6.len
  let (hash, _) := CHash256.Finalize sha h
  writeInto result hash.val

/-- `Hash160(pbegin, pend)`: the 160-bit hash of an object. -/
def Hash160 (sha : Hasher CSHA256.OUTPUT_SIZE) (ripemd : Hasher CRIPEMD160.OUTPUT_SIZE)
    (p : Span) : uint160 :=
  let result : uint160 := Vec.zero _
  let h := sha.init
  let h := CHash160.Write sha h p.data p.len
  let (hash, _) := CHash160.Finalize sha ripemd h
  writeInto result hash.val

/-- `Hash160(const std::vector<unsigned char>& vch)`: the 160-bit hash of a
vector. -/
def Hash160_vch (sha : Hasher CSHA256.OUTPUT_SIZE) (ripemd : Hasher CRIPEMD160.OUTPUT_SIZE)
    (vch : Bytes) : uint160 :=
  Hash160 sha ripemd (Span.ofVector vch)

/-! ## The scrypt dispatchers -/

/-- The interface of `crypto/scrypt.h` and `crypto/scrypt_opt.h` (not part of
`hash.h`). `scrypt pass salt N r p dkLen` gives the `dkLen` bytes that
`scrypt(pass, pLen, salt, sLen, output, N, r, p, dkLen)` stores at `output`.
`scryptHash input out N` is the optimised `scryptHash(input, output, N)` over
the fixed 80 bytes read at `input`: its truth value, and the contents of the
object at `output` after the call when they were `out` before. -/
structure ScryptLib where
  scrypt : Bytes → Bytes → Nat → Nat → Nat → (dkLen : Nat) → Vec dkLen
  scryptHash : Bytes → uint256 → Nat → Bool × uint256

/-- The calls a dispatcher makes, in order. -/
inductive Call where
  | scryptHash (input : Ptr) (N : Nat) : Call
  | LogPrintf (msg : String) : Call
  | scrypt_hash (input : Ptr) (inputlen : Nat) (N : Nat) : Call
deriving DecidableEq

/-- `scrypt_hash(input, inputlen, N)`. -/
def scrypt_hash (L : ScryptLib) (input : Ptr) (inputlen : Nat) (N : Nat := 1024) : uint256 :=
  let result : uint256 := Vec.zero _
  writeInto result (L.scrypt (input.read inputlen) (input.read inputlen) N 1 1 32).val

/-- `HashScrypt(pbegin, pend)`, with the list of calls it made. -/
def HashScrypt (L : ScryptLib) (p : Span) : uint256 × List Call :=
  let result : uint256 := Vec.zero _
  let fallback (log : List Call) : uint256 × List Call :=
    (scrypt_hash L p.data p.len,
      log ++ [Call.LogPrintf
          "Falling back to original implementation to generate normal scrypt hash\n",
        Call.scrypt_hash p.data p.len 1024])
  if p.len ≠ 80 then fallback []
  else
    let input := Ptr.elem0 p.mem
    let (ok, result) := L.scryptHash (input.read 80) result 1024
    let log := [Call.scryptHash input 1024]
    if ok = false then fallback log
    else if result = ZERO then fallback log
    else (result, log)

/-- `HashScryptSquared(pbegin, pend)`, with the list of calls it made. -/
def HashScryptSquared (L : ScryptLib) (p : Span) : uint256 × List Call :=
  let result : uint256 := Vec.zero _
  let fallback (log : List Call) : uint256 × List Call :=
    (scrypt_hash L p.data p.len 1048576,
      log ++ [Call.LogPrintf
          "Falling back to original implementation to generate scrypt² hash\n",
        Call.scrypt_hash p.data p.len 1048576])
  if p.len ≠ 80 then fallback []
  else
    let input := Ptr.elem0 p.mem
    let (ok, result) := L.scryptHash (input.read 80) result 1048576
    let log := [Call.scryptHash input 1048576]
    if ok = false then fallback log
    else if result = ZERO then fallback log
    else (result, log)

/-- The optimised path is unusable on the range `p` at cost factor `N`:
`scryptHash` answers false, or the digest it leaves in `result` is all zero. -/
def fastPathDegenerate (L : ScryptLib) (p : Span) (N : Nat) : Prop :=
  (L.scryptHash ((Ptr.elem0 p.mem).read 80) (Vec.zero 32) N).1 = false ∨
  (L.scryptHash ((Ptr.elem0 p.mem).read 80) (Vec.zero 32) N).2 = ZERO

/-- The optimised path is usable on the range `p` at cost factor `N`:
`scryptHash` answers true and the digest it leaves in `result` is not all
zero. -/
def fastPathValid (L : ScryptLib) (p : Span) (N : Nat) : Prop :=
  (L.scryptHash ((Ptr.elem0 p.mem).read 80) (Vec.zero 32) N).1 = true ∧
  (L.scryptHash ((Ptr.elem0 p.mem).read 80) (Vec.zero 32) N).2 ≠ ZERO

/-- `scrypt_salted_hash(input, inputlen, salt, saltlen)`. -/
def scrypt_salted_hash (L : ScryptLib) (input : Ptr) (inputlen : Nat) (salt : Ptr)
    (saltlen : Nat) : uint256 :=
  let result : uint256 := Vec.zero _
  writeInto result (L.scrypt (input.read inputlen) (salt.read saltlen) 1024 1 1 32).val

/-- The loop `for (unsigned int i = 1; i < nRounds; i++)` of
`scrypt_salted_multiround_hash`, entered with the current `i`, `resultHash`
and `transitionalHash`; `fuel` bounds the number of iterations still allowed.
The test `i < nRounds` precedes every increment, so `i` never wraps. -/
def scrypt_salted_multiround_hash.loop (L : ScryptLib) (input : Ptr) (inputlen : Nat)
    (nRounds : Nat) : Nat → Nat → uint256 → uint256 → uint256
  | 0, _, resultHash, _ => resultHash
  | fuel + 1, i, resultHash, transitionalHash =>
    if i < nRounds then
      let resultHash := scrypt_salted_hash L input inputlen (Ptr.elem0 transitionalHash.val) 32
      let transitionalHash := resultHash
      scrypt_salted_multiround_hash.loop L input inputlen nRounds fuel (i + 1) resultHash
        transitionalHash
    else resultHash

/-- `scrypt_salted_multiround_hash(input, inputlen, salt, saltlen, nRounds)`.
The loop is given `nRounds` iterations of fuel, more than the `nRounds - 1`
it can use. -/
def scrypt_salted_multiround_hash (L : ScryptLib) (input : Ptr) (inputlen : Nat) (salt : Ptr)
    (saltlen : Nat) (nRounds : Nat) : uint256 :=
  let resultHash := scrypt_salted_hash L input inputlen salt saltlen
  let transitionalHash := resultHash
  scrypt_salted_multiround_hash.loop L input inputlen nRounds nRounds 1 resultHash
    transitionalHash

/-- The chain of the multi-round salted KDF as the specification words it:
element 0 is `d1 = scrypt_salted_hash(input, salt)` and element `k + 1` is
`scrypt_salted_hash(input, the 32 bytes of element k as salt)`. -/
def saltedChain (L : ScryptLib) (input : Ptr) (inputlen : Nat) (salt : Ptr) (saltlen : Nat) :
    Nat → uint256
  | 0 => scrypt_salted_hash L input inputlen salt saltlen
  | k + 1 =>
    scrypt_salted_hash L input inputlen
      (Ptr.elem0 (saltedChain L input inputlen salt saltlen k).val) 32

/-! ## Argon2d and RandomX -/

/-- The interface of `crypto/argon2/argon2.h` (not part of `hash.h`):
`argon2d_hash_raw(t_cost, m_cost, parallelism, pwd, pwdlen, salt, saltlen,
hash, hashlen)`, given the contents `hash` of the output object before the
call; it yields its return code and the contents of the output object after
the call. -/
structure Argon2Lib where
  argon2d_hash_raw : Nat → Nat → Nat → Ptr → Nat → Ptr → Nat → uint256 → Nat → Int × uint256

/-- `HashArgon2d(pbegin, pend)`; the return code of `argon2d_hash_raw` is
dropped. -/
def HashArgon2d (A : Argon2Lib) (p : Span) : uint256 :=
  let t_cost : Nat := 1
  let m_cost : Nat := 4096
  let parallelism : Nat := 1
  let pwdlen : Nat := p.len
  let result : uint256 := Vec.zero _
  let hashlen : Nat := 32
  let (_, result) :=
    A.argon2d_hash_raw t_cost m_cost parallelism p.data pwdlen p.data pwdlen result hashlen
  result

/-- The interface of `crypto/RandomX/src/randomx.h` (not part of `hash.h`):
`VM` is what a non-null `randomx_vm*` points to, and
`randomx_calculate_hash machine input inputSize output` gives the contents of
the output object after the call, for a `machine` pointer that may be null
(`none`). -/
structure RandomXLib where
  VM : Type
  randomx_calculate_hash : Option VM → Ptr → Nat → uint256 → uint256

/-- The calls `HashRandomX` makes, in order. -/
inductive RandomXCall (VM : Type) where
  | randomx_calculate_hash (machine : Option VM) (input : Ptr) (inputSize : Nat) :
      RandomXCall VM

/-- `HashRandomX(pbegin, pend)`, with the list of calls it made; `vm` is the
shared `randomx_vm*` the function refers to, null when never constructed. -/
def HashRandomX (R : RandomXLib) (vm : Option R.VM) (p : Span) :
    uint256 × List (RandomXCall R.VM) :=
  let result : uint256 := Vec.zero _
  let result := R.randomx_calculate_hash vm p.data p.len result
  (result, [RandomXCall.randomx_calculate_hash vm p.data p.len])

/-! ## The hash writer -/

/-- `CHashWriter`: the private `CHash256 ctx` and the public `nType`,
`nVersion`. -/
structure CHashWriter (sha : Hasher CSHA256.OUTPUT_SIZE) where
  ctx : sha.State
  nType : Int
  nVersion : Int

/-- The constructor `CHashWriter(nTypeIn, nVersionIn)`; `ctx` is
default-constructed. -/
def CHashWriter.new (sha : Hasher CSHA256.OUTPUT_SIZE) (nTypeIn nVersionIn : Int) :
    CHashWriter sha :=
  ⟨sha.init, nTypeIn, nVersionIn⟩

/-- `CHashWriter::write(pch, size)`. -/
def CHashWriter.write {sha : Hasher CSHA256.OUTPUT_SIZE} (self : CHashWriter sha) (pch : Ptr)
    (size : Nat) : CHashWriter sha :=
  ⟨CHash256.Write sha self.ctx pch size, self.nType, self.nVersion⟩

/-- `CHashWriter::GetHash()`. -/
def CHashWriter.GetHash {sha : Hasher CSHA256.OUTPUT_SIZE} (self : CHashWriter sha) : uint256 :=
  let result : uint256 := Vec.zero _
  let (hash, _) := CHash256.Finalize sha self.ctx
  writeInto result hash.val

/-- The serialization framework of `serialize.h` (not part of `hash.h`), seen
from the stream: the `write(pch, size)` calls that
`::Serialize(os, obj, nType, nVersion)` makes on `os`, in order. -/
abbrev Serializer (T : Type) := T → Int → Int → List (Ptr × Nat)

/-- `CHashWriter::operator<<(obj)`. -/
def CHashWriter.shiftLeft {sha : Hasher CSHA256.OUTPUT_SIZE} {T : Type}
    (Serialize : Serializer T) (self : CHashWriter sha) (obj : T) : CHashWriter sha :=
  (Serialize obj self.nType self.nVersion).foldl (fun os w => os.write w.1 w.2) self

/-- `SerializeHash(obj, nType, nVersion)`. -/
def SerializeHash (sha : Hasher CSHA256.OUTPUT_SIZE) {T : Type} (Serialize : Serializer T)
    (obj : T) (nType nVersion : Int) : uint256 :=
  let ss := CHashWriter.new sha nType nVersion
  let ss := ss.shiftLeft Serialize obj
  ss.GetHash

/-! ## The calls made into the hasher classes

The one-range hashers and the cascade are written out a second time below,
recording each call into a primitive together with the data pointer and
length it is handed. -/

/-- The hasher classes of `crypto/` that `hash.h` calls. -/
inductive HasherClass where
  | CSHA256 : HasherClass
  | CSHA1 : HasherClass
  | CSHA512 : HasherClass
  | CRIPEMD160 : HasherClass
deriving DecidableEq

/-- One call into a hasher class `X`: its default constructor,
`Write(data, len)` with the pointer and length passed, `Finalize(hash)`, or
`Reset()`. -/
inductive HasherCall where
  | construct (X : HasherClass) : HasherCall
  | Write (X : HasherClass) (data : Ptr) (len : Nat) : HasherCall
  | Finalize (X : HasherClass) : HasherCall
  | Reset (X : HasherClass) : HasherCall
deriving DecidableEq

/-- `CHash256::Write` once more, now also recording the call it makes into
`CSHA256` with the pointer and length it passes on. -/
def CHash256.runWrite (sha : Hasher CSHA256.OUTPUT_SIZE) (self : sha.State)
    (log : List HasherCall) (data : Ptr) (len : Nat) : sha.State × List HasherCall :=
  (sha.Write self (data.read len), log ++ [HasherCall.Write HasherClass.CSHA256 data len])

/-- `CHash256::Finalize` once more, now also recording every call it makes into
`CSHA256`. -/
def CHash256.runFinalize (sha : Hasher CSHA256.OUTPUT_SIZE) (self : sha.State)
    (log : List HasherCall) : Vec CHash256.OUTPUT_SIZE × sha.State × List HasherCall :=
  let (buf, self) := sha.Finalize self
  let log := log ++ [HasherCall.Finalize HasherClass.CSHA256]
  let self := sha.Reset self
  let log := log ++ [HasherCall.Reset HasherClass.CSHA256]
  let self := sha.Write self ((Ptr.elem0 buf.val).read CSHA256.OUTPUT_SIZE)
  let log := log ++ [HasherCall.Write HasherClass.CSHA256 (Ptr.elem0 buf.val) CSHA256.OUTPUT_SIZE]
  let (hash, self) := sha.Finalize self
  let log := log ++ [HasherCall.Finalize HasherClass.CSHA256]
  (hash, self, log)

/-- `CHash1::Write` once more, now also recording the call it makes into
`CSHA1` with the pointer and length it passes on. -/
def CHash1.runWrite (sha : Hasher CSHA1.OUTPUT_SIZE) (self : sha.State)
    (log : List HasherCall) (data : Ptr) (len : Nat) : sha.State × List HasherCall :=
  (sha.Write self (data.read len), log ++ [HasherCall.Write HasherClass.CSHA1 data len])

/-- `CHash1::Finalize` once more, now also recording every call it makes into
`CSHA1`. -/
def CHash1.runFinalize (sha : Hasher CSHA1.OUTPUT_SIZE) (self : sha.State)
    (log : List HasherCall) : Vec CHash1.OUTPUT_SIZE × sha.State × List HasherCall :=
  let (buf, self) := sha.Finalize self
  let log := log ++ [HasherCall.Finalize HasherClass.CSHA1]
  let self := sha.Reset self
  let log := log ++ [HasherCall.Reset HasherClass.CSHA1]
  let self := sha.Write self ((Ptr.elem0 buf.val).read CSHA1.OUTPUT_SIZE)
  let log := log ++ [HasherCall.Write HasherClass.CSHA1 (Ptr.elem0 buf.val) CSHA1.OUTPUT_SIZE]
  let (hash, self) := sha.Finalize self
  let log := log ++ [HasherCall.Finalize HasherClass.CSHA1]
  (hash, self, log)

/-- `CHash512::Write` once more, now also recording the call it makes into
`CSHA512` with the pointer and length it passes on. -/
def CHash512.runWrite (sha : Hasher CSHA512.OUTPUT_SIZE) (self : sha.State)
    (log : List HasherCall) (data : Ptr) (len : Nat) : sha.State × List HasherCall :=
  (sha.Write self (data.read len), log ++ [HasherCall.Write HasherClass.CSHA512 data len])

/-- `CHash512::Finalize` once more, now also recording every call it makes into
`CSHA512`. -/
def CHash512.runFinalize (sha : Hasher CSHA512.OUTPUT_SIZE) (self : sha.State)
    (log : List HasherCall) : Vec CHash512.OUTPUT_SIZE × sha.State × List HasherCall :=
  let (buf, self) := sha.Finalize self
  let log := log ++ [HasherCall.Finalize HasherClass.CSHA512]
  let self := sha.Reset self
  let log := log ++ [HasherCall.Reset HasherClass.CSHA512]
  let self := sha.Write self ((Ptr.elem0 buf.val).read CSHA512.OUTPUT_SIZE)
  let log := log ++ [HasherCall.Write HasherClass.CSHA512 (Ptr.elem0 buf.val) CSHA512.OUTPUT_SIZE]
  let (hash, self) := sha.Finalize self
  let log := log ++ [HasherCall.Finalize HasherClass.CSHA512]
  (hash, self, log)

/-- `CHash160::Write` once more, now also recording the call it makes into
`CSHA256` with the pointer and length it passes on. -/
def CHash160.runWrite (sha : Hasher CSHA256.OUTPUT_SIZE) (self : sha.State)
    (log : List HasherCall) (data : Ptr) (len : Nat) : sha.State × List HasherCall :=
  (sha.Write self (data.read len), log ++ [HasherCall.Write HasherClass.CSHA256 data len])

/-- `CHash160::Finalize` once more, now also recording every call it makes
into `CSHA256` and `CRIPEMD160`. -/
def CHash160.runFinalize (sha : Hasher CSHA256.OUTPUT_SIZE)
    (ripemd : Hasher CRIPEMD160.OUTPUT_SIZE) (self : sha.State) (log : List HasherCall) :
    Vec CHash160.OUTPUT_SIZE × sha.State × List HasherCall :=
  let (buf, self) := sha.Finalize self
  let log := log ++ [HasherCall.Finalize HasherClass.CSHA256]
  let tmp := ripemd.init
  let log := log ++ [HasherCall.construct HasherClass.CRIPEMD160]
  let tmp := ripemd.Write tmp ((Ptr.elem0 buf.val).read CSHA256.OUTPUT_SIZE)
  let log :=
    log ++ [HasherCall.Write HasherClass.CRIPEMD160 (Ptr.elem0 buf.val) CSHA256.OUTPUT_SIZE]
  let hash := (ripemd.Finalize tmp).1
  let log := log ++ [HasherCall.Finalize HasherClass.CRIPEMD160]
  (hash, self, log)

/-- `Hash512(pbegin, pend)` once more, statement by statement, now also
recording every call made into `CSHA512`, in order: the value returned and the calls. -/
def Hash512.run (sha : Hasher CSHA512.OUTPUT_SIZE) (p : Span) : uint512 × List HasherCall :=
  let result : uint512 := Vec.zero _
  let h := sha.init
  let log := [HasherCall.construct HasherClass.CSHA512]
  let (h, log) := CHash512.runWrite sha h log p.data p.len
  let (hash, _, log) := CHash512.runFinalize sha h log
  (writeInto result hash.val, log)

/-- `Hash1(pbegin, pend)` once more, statement by statement, now also
recording every call made into `CSHA1`, in order: the value returned and the calls. -/
def Hash1.run (sha : Hasher CSHA1.OUTPUT_SIZE) (p : Span) : uint256 × List HasherCall :=
  let result : uint256 := Vec.zero _
  let h := sha.init
  let log := [HasherCall.construct HasherClass.CSHA1]
  let (h, log) := CHash1.runWrite sha h log p.data p.len
  let (hash, _, log) := CHash1.runFinalize sha h log
  (writeInto result hash.val, log)

/-- `Hash(pbegin, pend)` once more, statement by statement, now also
recording every call made into `CSHA256`, in order: the value returned and the calls. -/
def Hash.run (sha : Hasher CSHA256.OUTPUT_SIZE) (p : Span) : uint256 × List HasherCall :=
  let result : uint256 := Vec.zero _
  let h := sha.init
  let log := [HasherCall.construct HasherClass.CSHA256]
  let (h, log) := CHash256.runWrite sha h log p.data p.len
  let (hash, _, log) := CHash256.runFinalize sha h log
  (writeInto result hash.val, log)

/-- `Hash160(pbegin, pend)` once more, statement by statement, now also
recording every call made into `CSHA256` and `CRIPEMD160`, in order: the
value returned and the calls. -/
def Hash160.run (sha : Hasher CSHA256.OUTPUT_SIZE) (ripemd : Hasher CRIPEMD160.OUTPUT_SIZE)
    (p : Span) : uint160 × List HasherCall :=
  let result : uint160 := Vec.zero _
  let h := sha.init
  let log := [HasherCall.construct HasherClass.CSHA256]
  let (h, log) := CHash160.runWrite sha h log p.data p.len
  let (hash, _, log) := CHash160.runFinalize sha ripemd h log
  (writeInto result hash.val, log)

/-- One call into a 512-bit primitive, with its arguments: `sph_X512_init`,
`sph_X512(&ctx, data, len)` with the data pointer and length passed, or
`sph_X512_close(&ctx, &hash[slot])` with the slot it fills. -/
inductive SphDataCall where
  | init (X : SphAlgo) : SphDataCall
  | update (X : SphAlgo) (data : Ptr) (len : Nat) : SphDataCall
  | close (X : SphAlgo) (slot : Fin 9) : SphDataCall
deriving DecidableEq

/-- One invocation of a primitive as `HashQuark` writes it, with its
arguments: init, one update over `len` bytes at `data`, close into
`hash[slot]`. -/
def SphDataCall.invocation (X : SphAlgo) (data : Ptr) (len : Nat) (slot : Fin 9) :
    List SphDataCall :=
  [SphDataCall.init X, SphDataCall.update X data len, SphDataCall.close X slot]

/-- The address `&hash[i]` of a stage, with the 64 bytes stored there. -/
def uint512.addr (h : uint512) : Ptr := Ptr.elem0 h.val

/-- The body of `HashQuark` once more, statement by statement, now also
recording every call into a primitive with the data pointer and length it is
handed: the array `hash[9]` before the final `return`, and the calls made,
in order. -/
def HashQuark.runData (T : SphTable) (s : Span) : (Fin 9 → uint512) × List SphDataCall :=
  let mask : uint512 := uint512.ofNat 8
  let zero : uint512 := uint512.ofNat 0
  let hash : Fin 9 → uint512 := fun _ => Vec.zero 64
  let log : List SphDataCall := []
  let ctx_blake := T.blake512.init
  let log := log ++ [SphDataCall.init SphAlgo.blake512]
  let ctx_blake := T.blake512.update ctx_blake (s.data.read s.len)
  let log := log ++ [SphDataCall.update SphAlgo.blake512 s.data s.len]
  let hash := Function.update hash 0 (T.blake512.close ctx_blake)
  let log := log ++ [SphDataCall.close SphAlgo.blake512 0]
  let ctx_bmw := T.bmw512.init
  let log := log ++ [SphDataCall.init SphAlgo.bmw512]
  let ctx_bmw := T.bmw512.update ctx_bmw ((hash 0).addr.read 64)
  let log := log ++ [SphDataCall.update SphAlgo.bmw512 (hash 0).addr 64]
  let hash := Function.update hash 1 (T.bmw512.close ctx_bmw)
  let log := log ++ [SphDataCall.close SphAlgo.bmw512 1]
  let r :=
    if uint512.and (hash 1) mask ≠ zero then
      let ctx_groestl := T.groestl512.init
      let log := log ++ [SphDataCall.init SphAlgo.groestl512]
      let ctx_groestl := T.groestl512.update ctx_groestl ((hash 1).addr.read 64)
      let log := log ++ [SphDataCall.update SphAlgo.groestl512 (hash 1).addr 64]
      let hash := Function.update hash 2 (T.groestl512.close ctx_groestl)
      let log := log ++ [SphDataCall.close SphAlgo.groestl512 2]
      (hash, log)
    else
      let ctx_skein := T.skein512.init
      let log := log ++ [SphDataCall.init SphAlgo.skein512]
      let ctx_skein := T.skein512.update ctx_skein ((hash 1).addr.read 64)
      let log := log ++ [SphDataCall.update SphAlgo.skein512 (hash 1).addr 64]
      let hash := Function.update hash 2 (T.skein512.close ctx_skein)
      let log := log ++ [SphDataCall.close SphAlgo.skein512 2]
      (hash, log)
  let hash := r.1
  let log := r.2
  let ctx_groestl := T.groestl512.init
  let log := log ++ [SphDataCall.init SphAlgo.groestl512]
  let ctx_groestl := T.groestl512.update ctx_groestl ((hash 2).addr.read 64)
  let log := log ++ [SphDataCall.update SphAlgo.groestl512 (hash 2).addr 64]
  let hash := Function.update hash 3 (T.groestl512.close ctx_groestl)
  let log := log ++ [SphDataCall.close SphAlgo.groestl512 3]
  let ctx_jh := T.jh512.init
  let log := log ++ [SphDataCall.init SphAlgo.jh512]
  let ctx_jh := T.jh512.update ctx_jh ((hash 3).addr.read 64)
  let log := log ++ [SphDataCall.update SphAlgo.jh512 (hash 3).addr 64]
  let hash := Function.update hash 4 (T.jh512.close ctx_jh)
  let log := log ++ [SphDataCall.close SphAlgo.jh512 4]
  let r :=
    if uint512.and (hash 4) mask ≠ zero then
      let ctx_blake := T.blake512.init
      let log := log ++ [SphDataCall.init SphAlgo.blake512]
      let ctx_blake := T.blake512.update ctx_blake ((hash 4).addr.read 64)
      let log := log ++ [SphDataCall.update SphAlgo.blake512 (hash 4).addr 64]
      let hash := Function.update hash 5 (T.blake512.close ctx_blake)
      let log := log ++ [SphDataCall.close SphAlgo.blake512 5]
      (hash, log)
    else
      let ctx_bmw := T.bmw512.init
      let log := log ++ [SphDataCall.init SphAlgo.bmw512]
      let ctx_bmw := T.bmw512.update ctx_bmw ((hash 4).addr.read 64)
      let log := log ++ [SphDataCall.update SphAlgo.bmw512 (hash 4).addr 64]
      let hash := Function.update hash 5 (T.bmw512.close ctx_bmw)
      let log := log ++ [SphDataCall.close SphAlgo.bmw512 5]
      (hash, log)
  let hash := r.1
  let log := r.2
  let ctx_keccak := T.keccak512.init
  let log := log ++ [SphDataCall.init SphAlgo.keccak512]
  let ctx_keccak := T.keccak512.update ctx_keccak ((hash 5).addr.read 64)
  let log := log ++ [SphDataCall.update SphAlgo.keccak512 (hash 5).addr 64]
  let hash := Function.update hash 6 (T.keccak512.close ctx_keccak)
  let log := log ++ [SphDataCall.close SphAlgo.keccak512 6]
  let ctx_skein := T.skein512.init
  let log := log ++ [SphDataCall.init SphAlgo.skein512]
  let ctx_skein := T.skein512.update ctx_skein ((hash 6).addr.read 64)
  let log := log ++ [SphDataCall.update SphAlgo.skein512 (hash 6).addr 64]
  let hash := Function.update hash 7 (T.skein512.close ctx_skein)
  let log := log ++ [SphDataCall.close SphAlgo.skein512 7]
  let r :=
    if uint512.and (hash 7) mask ≠ zero then
      let ctx_keccak := T.keccak512.init
      let log := log ++ [SphDataCall.init SphAlgo.keccak512]
      let ctx_keccak := T.keccak512.update ctx_keccak ((hash 7).addr.read 64)
      let log := log ++ [SphDataCall.update SphAlgo.keccak512 (hash 7).addr 64]
      let hash := Function.update hash 8 (T.keccak512.close ctx_keccak)
      let log := log ++ [SphDataCall.close SphAlgo.keccak512 8]
      (hash, log)
    else
      let ctx_jh := T.jh512.init
      let log := log ++ [SphDataCall.init SphAlgo.jh512]
      let ctx_jh := T.jh512.update ctx_jh ((hash 7).addr.read 64)
      let log := log ++ [SphDataCall.update SphAlgo.jh512 (hash 7).addr 64]
      let hash := Function.update hash 8 (T.jh512.close ctx_jh)
      let log := log ++ [SphDataCall.close SphAlgo.jh512 8]
      (hash, log)
  let hash := r.1
  let log := r.2
  (hash, log)

/-! ## Small concrete primitives

Stand-ins with the interface of the external primitives, used to run the
definitions above on concrete inputs. -/

/-- A checksum of `n` bytes: byte `i` is `tag + i` plus a polynomial sum of the
message, reduced modulo 256. -/
def toyDigest (n tag : Nat) (m : Bytes) : Vec n :=
  ⟨(List.range n).map (fun i => Fin.ofNat (tag + i + m.foldl (fun a b => 31 * a + b.val) 7)),
    by simp⟩

/-- A streaming hasher whose state is the bytes written so far. -/
def toyHasher (n tag : Nat) : Hasher n where
  State := Bytes
  init := []
  Write := fun s d => s ++ d
  Finalize := fun s => (toyDigest n tag s, s)
  Reset := fun _ => []

/-- A 512-bit primitive whose context is the bytes absorbed so far. -/
def toySph (tag : Nat) : Sph512 where
  Ctx := Bytes
  init := []
  update := fun c d => c ++ d
  close := fun c => toyDigest 64 tag c

/-- Six pairwise different 512-bit primitives. -/
def toyTable : SphTable where
  blake512 := toySph 1
  bmw512 := toySph 2
  groestl512 := toySph 3
  jh512 := toySph 4
  keccak512 := toySph 5
  skein512 := toySph 6

/-- A scrypt library whose optimised path answers `ok` and leaves either the
all-zero digest (`degenerate`) or a checksum in the output. -/
def toyScrypt (ok degenerate : Bool) : ScryptLib where
  scrypt := fun pass salt N r p dkLen => toyDigest dkLen (N + r + p) (pass ++ salt)
  scryptHash := fun input _ N => (ok, if degenerate then ZERO else toyDigest 32 N input)

/-- A range of `n` bytes `0, 1, 2, ...` held in a byte vector. -/
def toySpan (n : Nat) : Span :=
  Span.ofVector ((List.range n).map (fun i => Fin.ofNat i))

/-- An Argon2d stand-in: return code 0 and a checksum of password and salt
that also depends on the cost parameters. -/
def toyArgon2 : Argon2Lib where
  argon2d_hash_raw := fun t m par pwd pwdlen salt saltlen _ _ =>
    (0, toyDigest 32 (t + m + par) (pwd.read pwdlen ++ salt.read saltlen))

/-- A RandomX stand-in whose machines are numbers; with a null machine it
leaves the output untouched. -/
def toyRandomX : RandomXLib where
  VM := Nat
  randomx_calculate_hash := fun machine input inputSize output =>
    match machine with
    | none => output
    | some k => toyDigest 32 k (input.read inputSize)

/-- A serializer of byte lists that writes the list in two chunks, split after
`nType` bytes (in one chunk when `nType` is not positive). -/
def toySerialize : Serializer Bytes := fun obj nType _ =>
  if nType ≤ 0 then [(Ptr.elem0 obj, obj.length)]
  else [(Ptr.elem0 obj, min nType.toNat obj.length),
    (Ptr.elem0 (obj.drop nType.toNat), obj.length - nType.toNat)]

/-- A scrypt library whose reference `scrypt` outputs only zero bytes and
whose optimised path answers true and leaves the all-zero digest. -/
def toyScryptZero : ScryptLib where
  scrypt := fun _ _ _ _ _ dkLen => Vec.zero dkLen
  scryptHash := fun _ _ _ => (true, ZERO)

/-! ## Auxiliary lemmas -/

theorem leValue_take (n : Nat) (bs : Bytes) :
    leValue (bs.take n) = leValue bs % 256 ^ n := by
  induction n generalizing bs with
  | zero => simp [leValue, Nat.mod_one]
  | succ k ih =>
    cases bs with
    | nil => simp [leValue]
    | cons b tl =>
      have hb : b.val < 256 := b.isLt
      simp only [List.take_succ_cons, leValue, ih tl, pow_succ]
      rw [Nat.mul_comm (256 ^ k) 256, Nat.mod_mul]
      have h1 : (b.val + 256 * leValue tl) % 256 = b.val := by omega
      have h2 : (b.val + 256 * leValue tl) / 256 = leValue tl := by omega
      rw [h1, h2]

theorem uint512.read64_eq (h : uint512) : h.read64 = h.val := by
  have h64 : h.val.length = 64 := h.property
  simp [uint512.read64, Ptr.read, List.take_of_length_le, h64]

theorem writeInto_val {n : Nat} (obj out : Vec n) : writeInto obj out.val = out := by
  have hn : out.val.length = n := out.property
  apply Subtype.ext
  simp [writeInto, List.take_append_of_le_length, hn, List.take_of_length_le]

theorem Span.bytes_ofVector (v : Bytes) : (Span.ofVector v).bytes = v := by
  cases v with
  | nil => simp [Span.bytes, Span.ofVector, Span.data, Span.len, Ptr.read]
  | cons b tl => simp [Span.bytes, Span.ofVector, Span.data, Span.len, Ptr.read]

theorem Span.bytes_of_count_zero (s : Span) (h : s.count = 0) : s.bytes = [] := by
  simp [Span.bytes, Span.data, Span.len, Ptr.read, h]

theorem update_ite {α : Type} (c : Prop) [Decidable c] (f : Fin 9 → α) (i : Fin 9) (a b : α) :
    (if c then Function.update f i a else Function.update f i b)
      = Function.update f i (if c then a else b) := by
  split_ifs <;> rfl

theorem toyHasher_streaming (n tag : Nat) : (toyHasher n tag).Streaming := by
  intro s a b
  exact List.append_assoc s a b

theorem toyHasher_writeNil (n tag : Nat) : (toyHasher n tag).WriteNil := by
  intro s
  exact List.append_nil s

theorem toyHasher_resetInit (n tag : Nat) : (toyHasher n tag).ResetInit := by
  intro _
  rfl

theorem readAll {n : Nat} (buf : Vec n) : (Ptr.elem0 buf.val).read n = buf.val := by
  have hn : buf.val.length = n := buf.property
  simp [Ptr.read, List.take_of_length_le, hn]

theorem Hash_eq (sha : Hasher CSHA256.OUTPUT_SIZE) (p : Span) :
    Hash sha p = (CHash256.Finalize sha (sha.Write sha.init p.bytes)).1 := by
  simp only [Hash, CHash256.Write, Span.bytes]
  exact writeInto_val _ _

theorem Hash_2_eq (sha : Hasher CSHA256.OUTPUT_SIZE) (p1 p2 : Span) :
    Hash_2 sha p1 p2
      = (CHash256.Finalize sha (sha.Write (sha.Write sha.init p1.bytes) p2.bytes)).1 := by
  simp only [Hash_2, CHash256.Write, Span.bytes]
  exact writeInto_val _ _

theorem Hash_3_eq (sha : Hasher CSHA256.OUTPUT_SIZE) (p1 p2 p3 : Span) :
    Hash_3 sha p1 p2 p3
      = (CHash256.Finalize sha (sha.Write (sha.Write (sha.Write sha.init p1.bytes) p2.bytes) p3.bytes)).1 := by
  simp only [Hash_3, CHash256.Write, Span.bytes]
  exact writeInto_val _ _

theorem Hash_4_eq (sha : Hasher CSHA256.OUTPUT_SIZE) (p1 p2 p3 p4 : Span) :
    Hash_4 sha p1 p2 p3 p4
      = (CHash256.Finalize sha (sha.Write (sha.Write (sha.Write (sha.Write sha.init p1.bytes) p2.bytes) p3.bytes) p4.bytes)).1 := by
  simp only [Hash_4, CHash256.Write, Span.bytes]
  exact writeInto_val _ _

theorem Hash_5_eq (sha : Hasher CSHA256.OUTPUT_SIZE) (p1 p2 p3 p4 p5 : Span) :
    Hash_5 sha p1 p2 p3 p4 p5
      = (CHash256.Finalize sha (sha.Write (sha.Write (sha.Write (sha.Write (sha.Write sha.init p1.bytes) p2.bytes) p3.bytes) p4.bytes) p5.bytes)).1 := by
  simp only [Hash_5, CHash256.Write, Span.bytes]
  exact writeInto_val _ _

theorem Hash_6_eq (sha : Hasher CSHA256.OUTPUT_SIZE) (p1 p2 p3 p4 p5 p6 : Span) :
    Hash_6 sha p1 p2 p3 p4 p5 p6
      = (CHash256.Finalize sha (sha.Write (sha.Write (sha.Write (sha.Write (sha.Write (sha.Write sha.init p1.bytes) p2.bytes) p3.bytes) p4.bytes) p5.bytes) p6.bytes)).1 := by
  simp only [Hash_6, CHash256.Write, Span.bytes]
  exact writeInto_val _ _

theorem Hash512_2_eq (sha : Hasher CSHA512.OUTPUT_SIZE) (p1 p2 : Span) :
    Hash512_2 sha p1 p2
      = (CHash512.Finalize sha (sha.Write (sha.Write sha.init p1.bytes) p2.bytes)).1 := by
  simp only [Hash512_2, CHash512.Write, Span.bytes]
  exact writeInto_val _ _

theorem Hash1_2_eq (sha : Hasher CSHA1.OUTPUT_SIZE) (p1 p2 : Span) :
    Hash1_2 sha p1 p2
      = writeInto (Vec.zero 32) (CHash1.Finalize sha (sha.Write (sha.Write sha.init p1.bytes) p2.bytes)).1.val := by
  simp only [Hash1_2, CHash1.Write, Span.bytes]

theorem Hash512_eq (sha : Hasher CSHA512.OUTPUT_SIZE) (p : Span) :
    Hash512 sha p = (CHash512.Finalize sha (sha.Write sha.init p.bytes)).1 := by
  simp only [Hash512, CHash512.Write, Span.bytes]
  exact writeInto_val _ _

theorem Hash1_eq (sha : Hasher CSHA1.OUTPUT_SIZE) (p : Span) :
    Hash1 sha p
      = writeInto (Vec.zero 32) (CHash1.Finalize sha (sha.Write sha.init p.bytes)).1.val := by
  simp only [Hash1, CHash1.Write, Span.bytes]

theorem Hash160_eq (sha : Hasher CSHA256.OUTPUT_SIZE) (ripemd : Hasher CRIPEMD160.OUTPUT_SIZE)
    (p : Span) :
    Hash160 sha ripemd p = ripemd.digest (sha.digest p.bytes).val := by
  simp only [Hash160, CHash160.Write, CHash160.Finalize, Span.bytes, Hasher.digest, readAll]
  exact writeInto_val _ _

theorem toyHasher_contract (n tag : Nat) : (toyHasher n tag).Contract :=
  ⟨toyHasher_streaming n tag, toyHasher_writeNil n tag, toyHasher_resetInit n tag⟩

theorem foldl_Write {n : Nat} (P : Hasher n) (hs : P.Streaming) (hn : P.WriteNil)
    (ws : List (Ptr × Nat)) (st : P.State) :
    ws.foldl (fun st w => P.Write st (w.1.read w.2)) st = P.Write st (writtenBytes ws) := by
  induction ws generalizing st with
  | nil => simp [writtenBytes, hn st]
  | cons w tl ih =>
    have h := ih (P.Write st (w.1.read w.2))
    simp only [List.foldl_cons, h, writtenBytes, List.map_cons, List.flatten_cons]
    exact hs _ _ _

theorem HashQuark.stages_congr (T : SphTable) (a b : Span) (h : a.bytes = b.bytes) :
    HashQuark.stages T a = HashQuark.stages T b := by
  simp only [Span.bytes] at h
  simp only [HashQuark.stages, h]

theorem HashQuark_stage0_aux (T : SphTable) (s : Span) :
    HashQuark.stages T s 0 = T.blake512.digest s.bytes := by
  simp only [HashQuark.stages, update_ite, uint512.read64_eq]
  simp only [Function.update_same, ne_eq, Fin.reduceEq, not_false_eq_true,
    Function.update_noteq, Sph512.digest, Span.bytes]

theorem scrypt_salted_multiround_hash.loop_eq (L : ScryptLib) (input : Ptr) (inputlen : Nat)
    (salt : Ptr) (saltlen : Nat) (nRounds : Nat) (fuel : Nat) :
    ∀ k : Nat, nRounds ≤ fuel + (k + 1) →
      scrypt_salted_multiround_hash.loop L input inputlen nRounds fuel (k + 1)
          (saltedChain L input inputlen salt saltlen k)
          (saltedChain L input inputlen salt saltlen k)
        = saltedChain L input inputlen salt saltlen (max k (nRounds - 1)) := by
  induction fuel with
  | zero =>
    intro k hk
    have hmax : max k (nRounds - 1) = k := by omega
    simp only [scrypt_salted_multiround_hash.loop, hmax]
  | succ fuel ih =>
    intro k hk
    by_cases hlt : k + 1 < nRounds
    · have hmax : max k (nRounds - 1) = max (k + 1) (nRounds - 1) := by omega
      have h := ih (k + 1) (by omega)
      simp only [scrypt_salted_multiround_hash.loop, hlt, if_true, hmax]
      exact h
    · have hmax : max k (nRounds - 1) = k := by omega
      simp only [scrypt_salted_multiround_hash.loop, hlt, if_false, hmax]

theorem scrypt_salted_multiround_hash_eq (L : ScryptLib) (input : Ptr) (inputlen : Nat)
    (salt : Ptr) (saltlen : Nat) (nRounds : Nat) :
    scrypt_salted_multiround_hash L input inputlen salt saltlen nRounds
      = saltedChain L input inputlen salt saltlen (nRounds - 1) := by
  have h := scrypt_salted_multiround_hash.loop_eq L input inputlen salt saltlen nRounds nRounds 0
    (by omega)
  have hmax : max 0 (nRounds - 1) = nRounds - 1 := by omega
  rw [hmax] at h
  exact h

theorem foldl_Write_cons {n : Nat} (P : Hasher n) (hs : P.Streaming) (w : Ptr × Nat)
    (ws : List (Ptr × Nat)) (st : P.State) :
    (w :: ws).foldl (fun st w => P.Write st (w.1.read w.2)) st
      = P.Write st (writtenBytes (w :: ws)) := by
  induction ws generalizing st w with
  | nil => simp [writtenBytes]
  | cons v tl ih =>
    have h := ih v (P.Write st (w.1.read w.2))
    simp only [List.foldl_cons] at h ⊢
    rw [h, hs]
    simp [writtenBytes]

theorem CHashWriter.foldl_write_ctx {sha : Hasher CSHA256.OUTPUT_SIZE}
    (ws : List (Ptr × Nat)) (os : CHashWriter sha) :
    (ws.foldl (fun os w => os.write w.1 w.2) os).ctx
      = ws.foldl (fun st w => sha.Write st (w.1.read w.2)) os.ctx := by
  induction ws generalizing os with
  | nil => rfl
  | cons w tl ih =>
    simp only [List.foldl_cons]
    rw [ih]
    rfl

theorem HashQuark.run_fst (T : SphTable) (s : Span) :
    (HashQuark.run T s).1 = HashQuark.stages T s := by
  simp only [HashQuark.run, HashQuark.stages, apply_ite Prod.fst, update_ite]

theorem HashQuark.run_snd (T : SphTable) (s : Span) :
    (HashQuark.run T s).2
      = SphCall.invocation SphAlgo.blake512 s.len 0
        ++ SphCall.invocation SphAlgo.bmw512 64 1
        ++ SphCall.invocation
            (if uint512.and (HashQuark.stages T s 1) (uint512.ofNat 8) ≠ uint512.ofNat 0
              then SphAlgo.groestl512 else SphAlgo.skein512) 64 2
        ++ SphCall.invocation SphAlgo.groestl512 64 3
        ++ SphCall.invocation SphAlgo.jh512 64 4
        ++ SphCall.invocation
            (if uint512.and (HashQuark.stages T s 4) (uint512.ofNat 8) ≠ uint512.ofNat 0
              then SphAlgo.blake512 else SphAlgo.bmw512) 64 5
        ++ SphCall.invocation SphAlgo.keccak512 64 6
        ++ SphCall.invocation SphAlgo.skein512 64 7
        ++ SphCall.invocation
            (if uint512.and (HashQuark.stages T s 7) (uint512.ofNat 8) ≠ uint512.ofNat 0
              then SphAlgo.keccak512 else SphAlgo.jh512) 64 8 := by
  simp only [HashQuark.run, HashQuark.stages, apply_ite Prod.fst, apply_ite Prod.snd,
    update_ite, uint512.read64_eq]
  simp only [Function.update_same, ne_eq, Fin.reduceEq, not_false_eq_true,
    Function.update_noteq, Sph512.digest]
  split_ifs <;> simp [SphCall.invocation]

theorem leBytes_zero (n : Nat) : (leBytes n 0).val = List.replicate n 0 := by
  induction n with
  | zero => rfl
  | succ k ih =>
    simp only [leBytes, Nat.zero_div, ih, List.replicate_succ]
    rfl

theorem leValue_replicate_zero (n : Nat) : leValue (List.replicate n 0) = 0 := by
  induction n with
  | zero => rfl
  | succ k ih => simp [List.replicate_succ, leValue, ih]

set_option maxRecDepth 100000 in
theorem byte_and_zero : ∀ b : Byte, b &&& (0 : Byte) = 0 := by
  decide

theorem zipWith_and_zero (l : Bytes) :
    ∀ n : Nat, l.length = n →
      List.zipWith (fun x y => x &&& y) l (List.replicate n 0) = List.replicate n 0 := by
  induction l with
  | nil =>
    intro n hn
    subst hn
    rfl
  | cons b tl ih =>
    intro n hn
    cases n with
    | zero => simp at hn
    | succ k =>
      have hb : b &&& (0 : Byte) = 0 := byte_and_zero b
      have htl : tl.length = k := by simpa using hn
      simp only [List.replicate_succ, List.zipWith_cons_cons, ih k htl, hb]

set_option maxRecDepth 100000 in
theorem byte_and_8 : ∀ b : Byte, (b &&& 8 ≠ 0) ↔ b.val.testBit 3 = true := by
  decide

theorem uint512.and_mask_ne_zero_iff (h : uint512) :
    uint512.and h (uint512.ofNat 8) ≠ uint512.ofNat 0 ↔ (leValue h.val).testBit 3 = true := by
  obtain ⟨l, hl⟩ := h
  cases l with
  | nil => simp at hl
  | cons b tl =>
    have htl : tl.length = 63 := by simpa using hl
    have h8 : (uint512.ofNat 8).val = 8 :: List.replicate 63 0 := by
      have hz := leBytes_zero 63
      simp only [uint512.ofNat, leBytes, hz]
      rfl
    have h0 : (uint512.ofNat 0).val = 0 :: List.replicate 63 0 := by
      have hz := leBytes_zero 64
      simp only [uint512.ofNat, hz, List.replicate_succ]
    have hbit : (leValue (b :: tl)).testBit 3 = b.val.testBit 3 := by
      have hb : b.val < 256 := b.isLt
      have hmod : (b.val + 256 * leValue tl) % 2 ^ 8 = b.val := by omega
      have h := Nat.testBit_mod_two_pow (b.val + 256 * leValue tl) 8 3
      rw [hmod] at h
      simpa [leValue] using h.symm
    rw [Ne, Subtype.ext_iff, h0]
    simp only [uint512.and, h8, List.zipWith_cons_cons, zipWith_and_zero tl 63 htl, hbit]
    rw [← byte_and_8 b]
    simp

theorem Hash_run_fst (sha : Hasher CSHA256.OUTPUT_SIZE) (p : Span) :
    (Hash.run sha p).1 = Hash sha p := by
  rfl

theorem Hash_run_snd (sha : Hasher CSHA256.OUTPUT_SIZE) (p : Span) :
    (Hash.run sha p).2
      = [HasherCall.construct HasherClass.CSHA256, HasherCall.Write HasherClass.CSHA256 p.data p.len,
          HasherCall.Finalize HasherClass.CSHA256, HasherCall.Reset HasherClass.CSHA256,
          HasherCall.Write HasherClass.CSHA256 (Ptr.elem0 (sha.digest p.bytes).val) CSHA256.OUTPUT_SIZE,
          HasherCall.Finalize HasherClass.CSHA256] := by
  rfl

theorem Hash512_run_fst (sha : Hasher CSHA512.OUTPUT_SIZE) (p : Span) :
    (Hash512.run sha p).1 = Hash512 sha p := by
  rfl

theorem Hash512_run_snd (sha : Hasher CSHA512.OUTPUT_SIZE) (p : Span) :
    (Hash512.run sha p).2
      = [HasherCall.construct HasherClass.CSHA512, HasherCall.Write HasherClass.CSHA512 p.data p.len,
          HasherCall.Finalize HasherClass.CSHA512, HasherCall.Reset HasherClass.CSHA512,
          HasherCall.Write HasherClass.CSHA512 (Ptr.elem0 (sha.digest p.bytes).val) CSHA512.OUTPUT_SIZE,
          HasherCall.Finalize HasherClass.CSHA512] := by
  rfl

theorem Hash1_run_fst (sha : Hasher CSHA1.OUTPUT_SIZE) (p : Span) :
    (Hash1.run sha p).1 = Hash1 sha p := by
  rfl

theorem Hash1_run_snd (sha : Hasher CSHA1.OUTPUT_SIZE) (p : Span) :
    (Hash1.run sha p).2
      = [HasherCall.construct HasherClass.CSHA1, HasherCall.Write HasherClass.CSHA1 p.data p.len,
          HasherCall.Finalize HasherClass.CSHA1, HasherCall.Reset HasherClass.CSHA1,
          HasherCall.Write HasherClass.CSHA1 (Ptr.elem0 (sha.digest p.bytes).val) CSHA1.OUTPUT_SIZE,
          HasherCall.Finalize HasherClass.CSHA1] := by
  rfl

theorem Hash160_run_fst (sha : Hasher CSHA256.OUTPUT_SIZE)
    (ripemd : Hasher CRIPEMD160.OUTPUT_SIZE) (p : Span) :
    (Hash160.run sha ripemd p).1 = Hash160 sha ripemd p := by
  rfl

theorem Hash160_run_snd (sha : Hasher CSHA256.OUTPUT_SIZE)
    (ripemd : Hasher CRIPEMD160.OUTPUT_SIZE) (p : Span) :
    (Hash160.run sha ripemd p).2
      = [HasherCall.construct HasherClass.CSHA256,
          HasherCall.Write HasherClass.CSHA256 p.data p.len,
          HasherCall.Finalize HasherClass.CSHA256,
          HasherCall.construct HasherClass.CRIPEMD160,
          HasherCall.Write HasherClass.CRIPEMD160 (Ptr.elem0 (sha.digest p.bytes).val)
            CSHA256.OUTPUT_SIZE,
          HasherCall.Finalize HasherClass.CRIPEMD160] := by
  rfl

theorem uint512.addr_read (h : uint512) : h.addr.read 64 = h.val :=
  uint512.read64_eq h

theorem HashQuark.runData_fst (T : SphTable) (s : Span) :
    (HashQuark.runData T s).1 = HashQuark.stages T s := by
  simp only [HashQuark.runData, HashQuark.stages, apply_ite Prod.fst, update_ite,
    uint512.addr_read, uint512.read64_eq]

theorem HashQuark.runData_snd (T : SphTable) (s : Span) :
    (HashQuark.runData T s).2
      = SphDataCall.invocation SphAlgo.blake512 s.data s.len 0
        ++ SphDataCall.invocation SphAlgo.bmw512 (HashQuark.stages T s 0).addr 64 1
        ++ SphDataCall.invocation
            (if uint512.and (HashQuark.stages T s 1) (uint512.ofNat 8) ≠ uint512.ofNat 0
              then SphAlgo.groestl512 else SphAlgo.skein512)
            (HashQuark.stages T s 1).addr 64 2
        ++ SphDataCall.invocation SphAlgo.groestl512 (HashQuark.stages T s 2).addr 64 3
        ++ SphDataCall.invocation SphAlgo.jh512 (HashQuark.stages T s 3).addr 64 4
        ++ SphDataCall.invocation
            (if uint512.and (HashQuark.stages T s 4) (uint512.ofNat 8) ≠ uint512.ofNat 0
              then SphAlgo.blake512 else SphAlgo.bmw512)
            (HashQuark.stages T s 4).addr 64 5
        ++ SphDataCall.invocation SphAlgo.keccak512 (HashQuark.stages T s 5).addr 64 6
        ++ SphDataCall.invocation SphAlgo.skein512 (HashQuark.stages T s 6).addr 64 7
        ++ SphDataCall.invocation
            (if uint512.and (HashQuark.stages T s 7) (uint512.ofNat 8) ≠ uint512.ofNat 0
              then SphAlgo.keccak512 else SphAlgo.jh512)
            (HashQuark.stages T s 7).addr 64 8 := by
  simp only [HashQuark.runData, HashQuark.stages, apply_ite Prod.fst, apply_ite Prod.snd,
    update_ite, uint512.read64_eq, uint512.addr_read]
  simp only [Function.update_same, ne_eq, Fin.reduceEq, not_false_eq_true,
    Function.update_noteq, Sph512.digest]
  generalize T.blake512.close (T.blake512.update T.blake512.init (s.data.read s.len)) = st0
  generalize T.bmw512.close (T.bmw512.update T.bmw512.init st0.val) = st1
  by_cases h1 : ¬st1.and (uint512.ofNat 8) = uint512.ofNat 0
  · simp only [if_pos h1]
    generalize T.groestl512.close (T.groestl512.update T.groestl512.init st1.val) = st2
    generalize T.groestl512.close (T.groestl512.update T.groestl512.init st2.val) = st3
    generalize T.jh512.close (T.jh512.update T.jh512.init st3.val) = st4
    by_cases h4 : ¬st4.and (uint512.ofNat 8) = uint512.ofNat 0
    · simp only [if_pos h4]
      generalize T.blake512.close (T.blake512.update T.blake512.init st4.val) = st5
      generalize T.keccak512.close (T.keccak512.update T.keccak512.init st5.val) = st6
      generalize T.skein512.close (T.skein512.update T.skein512.init st6.val) = st7
      by_cases h7 : ¬st7.and (uint512.ofNat 8) = uint512.ofNat 0
      · simp only [if_pos h7]
        simp only [SphDataCall.invocation, List.nil_append, List.append_assoc,
          List.cons_append]
      · simp only [if_neg h7]
        simp only [SphDataCall.invocation, List.nil_append, List.append_assoc,
          List.cons_append]
    · simp only [if_neg h4]
      generalize T.bmw512.close (T.bmw512.update T.bmw512.init st4.val) = st5
      generalize T.keccak512.close (T.keccak512.update T.keccak512.init st5.val) = st6
      generalize T.skein512.close (T.skein512.update T.skein512.init st6.val) = st7
      by_cases h7 : ¬st7.and (uint512.ofNat 8) = uint512.ofNat 0
      · simp only [if_pos h7]
        simp only [SphDataCall.invocation, List.nil_append, List.append_assoc,
          List.cons_append]
      · simp only [if_neg h7]
        simp only [SphDataCall.invocation, List.nil_append, List.append_assoc,
          List.cons_append]
  · simp only [if_neg h1]
    generalize T.skein512.close (T.skein512.update T.skein512.init st1.val) = st2
    generalize T.groestl512.close (T.groestl512.update T.groestl512.init st2.val) = st3
    generalize T.jh512.close (T.jh512.update T.jh512.init st3.val) = st4
    by_cases h4 : ¬st4.and (uint512.ofNat 8) = uint512.ofNat 0
    · simp only [if_pos h4]
      generalize T.blake512.close (T.blake512.update T.blake512.init st4.val) = st5
      generalize T.keccak512.close (T.keccak512.update T.keccak512.init st5.val) = st6
      generalize T.skein512.close (T.skein512.update T.skein512.init st6.val) = st7
      by_cases h7 : ¬st7.and (uint512.ofNat 8) = uint512.ofNat 0
      · simp only [if_pos h7]
        simp only [SphDataCall.invocation, List.nil_append, List.append_assoc,
          List.cons_append]
      · simp only [if_neg h7]
        simp only [SphDataCall.invocation, List.nil_append, List.append_assoc,
          List.cons_append]
    · simp only [if_neg h4]
      generalize T.bmw512.close (T.bmw512.update T.bmw512.init st4.val) = st5
      generalize T.keccak512.close (T.keccak512.update T.keccak512.init st5.val) = st6
      generalize T.skein512.close (T.skein512.update T.skein512.init st6.val) = st7
      by_cases h7 : ¬st7.and (uint512.ofNat 8) = uint512.ofNat 0
      · simp only [if_pos h7]
        simp only [SphDataCall.invocation, List.nil_append, List.append_assoc,
          List.cons_append]
      · simp only [if_neg h7]
        simp only [SphDataCall.invocation, List.nil_append, List.append_assoc,
          List.cons_append]

/-! ## The Quark cascade -/

set_option maxRecDepth 100000 in
/-- C1 (as stated, refuted): on the concrete table `toyTable` and the 3-byte
input `toySpan 3`, stage 1 of `HashQuark` is not the Blake-512 digest of
stage 0. -/
theorem HashQuark_stage1_not_blake :
    HashQuark.stages toyTable (toySpan 3) 1
      ≠ toyTable.blake512.digest (HashQuark.stages toyTable (toySpan 3) 0).val := by
  decide

/-- C1 (amended): for every table of primitives and every input range, stage 0
of `HashQuark` is the Blake-512 digest of the raw input bytes and stage 1 is
the BMW-512 digest of the 64 bytes of stage 0. -/
theorem HashQuark_stage0_stage1 (T : SphTable) (s : Span) :
    HashQuark.stages T s 0 = T.blake512.digest s.bytes ∧
    HashQuark.stages T s 1 = T.bmw512.digest (HashQuark.stages T s 0).val := by
  simp only [HashQuark.stages, update_ite, uint512.read64_eq]
  simp only [Function.update_same, ne_eq, Fin.reduceEq, not_false_eq_true,
    Function.update_noteq, Sph512.digest, Span.bytes]
  exact ⟨trivial, trivial⟩

/-- C2: for every table of primitives and every input range, stages 2 to 8 of
`HashQuark` follow the reference chain over the 64 bytes of the previous
stage: Groestl or Skein at stage 2, Groestl at 3, JH at 4, Blake or BMW at 5,
Keccak at 6, Skein at 7, Keccak or JH at 8, the first of each pair being taken
exactly when the previous stage ANDed with the 512-bit mask 8 is not zero. -/
theorem HashQuark_stages_2_to_8 (T : SphTable) (s : Span) :
    HashQuark.stages T s 2
      = (if uint512.and (HashQuark.stages T s 1) (uint512.ofNat 8) ≠ uint512.ofNat 0
          then T.groestl512.digest (HashQuark.stages T s 1).val
          else T.skein512.digest (HashQuark.stages T s 1).val) ∧
    HashQuark.stages T s 3 = T.groestl512.digest (HashQuark.stages T s 2).val ∧
    HashQuark.stages T s 4 = T.jh512.digest (HashQuark.stages T s 3).val ∧
    HashQuark.stages T s 5
      = (if uint512.and (HashQuark.stages T s 4) (uint512.ofNat 8) ≠ uint512.ofNat 0
          then T.blake512.digest (HashQuark.stages T s 4).val
          else T.bmw512.digest (HashQuark.stages T s 4).val) ∧
    HashQuark.stages T s 6 = T.keccak512.digest (HashQuark.stages T s 5).val ∧
    HashQuark.stages T s 7 = T.skein512.digest (HashQuark.stages T s 6).val ∧
    HashQuark.stages T s 8
      = (if uint512.and (HashQuark.stages T s 7) (uint512.ofNat 8) ≠ uint512.ofNat 0
          then T.keccak512.digest (HashQuark.stages T s 7).val
          else T.jh512.digest (HashQuark.stages T s 7).val) := by
  simp only [HashQuark.stages, update_ite, uint512.read64_eq]
  simp only [Function.update_same, ne_eq, Fin.reduceEq, not_false_eq_true,
    Function.update_noteq, Sph512.digest]
  exact ⟨trivial, trivial, trivial, trivial, trivial, trivial, trivial⟩

/-- C3: for every table of primitives and every input range, the value
returned by `HashQuark` is `trim256` of stage 8, and the number it holds is
the number held by stage 8 reduced modulo `2 ^ 256`, its low 256 bits. -/
theorem HashQuark_eq_trim256_stage8 (T : SphTable) (s : Span) :
    HashQuark T s = trim256 (HashQuark.stages T s 8) ∧
    leValue (HashQuark T s).val = leValue (HashQuark.stages T s 8).val % 2 ^ 256 := by
  refine ⟨rfl, ?_⟩
  have h := leValue_take 32 (HashQuark.stages T s 8).val
  have hp : (256 : Nat) ^ 32 = 2 ^ 256 := by norm_num
  rw [hp] at h
  exact h

/-! ## The span hashers -/

/-- C4: when the underlying hasher is streaming, the two-range `Hash` of `a`
and `b` equals the one-range `Hash` of a byte vector holding the bytes of `a`
followed by the bytes of `b`, for all ranges `a` and `b`, empty or not; the
same holds for `Hash512` and for `Hash1`. -/
theorem Hash_two_spans_concat (sha256 : Hasher CSHA256.OUTPUT_SIZE)
    (sha512 : Hasher CSHA512.OUTPUT_SIZE) (sha1 : Hasher CSHA1.OUTPUT_SIZE)
    (h256 : sha256.Streaming) (h512 : sha512.Streaming) (h1 : sha1.Streaming)
    (a b : Span) :
    Hash_2 sha256 a b = Hash sha256 (Span.ofVector (a.bytes ++ b.bytes)) ∧
    Hash512_2 sha512 a b = Hash512 sha512 (Span.ofVector (a.bytes ++ b.bytes)) ∧
    Hash1_2 sha1 a b = Hash1 sha1 (Span.ofVector (a.bytes ++ b.bytes)) := by
  refine ⟨?_, ?_, ?_⟩
  · rw [Hash_2_eq, Hash_eq, Span.bytes_ofVector, h256]
  · rw [Hash512_2_eq, Hash512_eq, Span.bytes_ofVector, h512]
  · rw [Hash1_2_eq, Hash1_eq, Span.bytes_ofVector, h1]

/-- C4, at concrete inputs: the streaming hashers `toyHasher`, a 2-byte and a
3-byte range. -/
theorem Hash_two_spans_concat_witness :
    (toyHasher CSHA256.OUTPUT_SIZE 1).Streaming ∧
    (toyHasher CSHA512.OUTPUT_SIZE 2).Streaming ∧
    (toyHasher CSHA1.OUTPUT_SIZE 3).Streaming ∧
    (Hash_2 (toyHasher CSHA256.OUTPUT_SIZE 1) (toySpan 2) (toySpan 3)
        = Hash (toyHasher CSHA256.OUTPUT_SIZE 1)
            (Span.ofVector ((toySpan 2).bytes ++ (toySpan 3).bytes)) ∧
      Hash512_2 (toyHasher CSHA512.OUTPUT_SIZE 2) (toySpan 2) (toySpan 3)
        = Hash512 (toyHasher CSHA512.OUTPUT_SIZE 2)
            (Span.ofVector ((toySpan 2).bytes ++ (toySpan 3).bytes)) ∧
      Hash1_2 (toyHasher CSHA1.OUTPUT_SIZE 3) (toySpan 2) (toySpan 3)
        = Hash1 (toyHasher CSHA1.OUTPUT_SIZE 3)
            (Span.ofVector ((toySpan 2).bytes ++ (toySpan 3).bytes))) :=
  ⟨toyHasher_streaming _ _, toyHasher_streaming _ _, toyHasher_streaming _ _,
    Hash_two_spans_concat (toyHasher CSHA256.OUTPUT_SIZE 1) (toyHasher CSHA512.OUTPUT_SIZE 2)
      (toyHasher CSHA1.OUTPUT_SIZE 3) (toyHasher_streaming _ _) (toyHasher_streaming _ _)
      (toyHasher_streaming _ _) (toySpan 2) (toySpan 3)⟩

/-- C5: when `CSHA256` is streaming, each `Hash` overload over three, four,
five and six ranges equals the one-range `Hash` of a byte vector holding the
bytes of the ranges in argument order, for all ranges, empty or not; and the
bytes a range contributes never exceed its declared length
`(pend - pbegin) * sizeof(pbegin[0])`, and are exactly that many whenever the
memory behind the range is at least that long. -/
theorem Hash_three_to_six_spans_concat (sha : Hasher CSHA256.OUTPUT_SIZE)
    (hs : sha.Streaming) (p1 p2 p3 p4 p5 p6 : Span) :
    Hash_3 sha p1 p2 p3 = Hash sha (Span.ofVector (p1.bytes ++ p2.bytes ++ p3.bytes)) ∧
    Hash_4 sha p1 p2 p3 p4 = Hash sha (Span.ofVector (p1.bytes ++ p2.bytes ++ p3.bytes ++ p4.bytes)) ∧
    Hash_5 sha p1 p2 p3 p4 p5
      = Hash sha (Span.ofVector (p1.bytes ++ p2.bytes ++ p3.bytes ++ p4.bytes ++ p5.bytes)) ∧
    Hash_6 sha p1 p2 p3 p4 p5 p6
      = Hash sha
          (Span.ofVector (p1.bytes ++ p2.bytes ++ p3.bytes ++ p4.bytes ++ p5.bytes ++ p6.bytes)) ∧
    (∀ p : Span, p.bytes.length ≤ p.len ∧ (p.len ≤ p.mem.length → p.bytes.length = p.len)) := by
  have hw : ∀ (s : sha.State) (a b : Bytes), sha.Write (sha.Write s a) b = sha.Write s (a ++ b) :=
    hs
  refine ⟨?_, ?_, ?_, ?_, ?_⟩
  · rw [Hash_3_eq, Hash_eq, Span.bytes_ofVector]
    simp only [hw, List.append_assoc]
  · rw [Hash_4_eq, Hash_eq, Span.bytes_ofVector]
    simp only [hw, List.append_assoc]
  · rw [Hash_5_eq, Hash_eq, Span.bytes_ofVector]
    simp only [hw, List.append_assoc]
  · rw [Hash_6_eq, Hash_eq, Span.bytes_ofVector]
    simp only [hw, List.append_assoc]
  · intro p
    by_cases hc : p.count = 0
    · simp [Span.bytes, Span.data, Span.len, Ptr.read, hc]
    · simp only [Span.bytes, Span.data, Span.len, Ptr.read, hc, if_false, List.length_take]
      omega

/-- C5, at concrete inputs: the streaming hasher `toyHasher` and six ranges of
1, 0, 2, 3, 0 and 4 bytes. -/
theorem Hash_three_to_six_spans_concat_witness :
    (toyHasher CSHA256.OUTPUT_SIZE 1).Streaming ∧
    Hash_3 (toyHasher CSHA256.OUTPUT_SIZE 1) (toySpan 1) (toySpan 0) (toySpan 2)
      = Hash (toyHasher CSHA256.OUTPUT_SIZE 1)
          (Span.ofVector ((toySpan 1).bytes ++ (toySpan 0).bytes ++ (toySpan 2).bytes)) ∧
    Hash_6 (toyHasher CSHA256.OUTPUT_SIZE 1) (toySpan 1) (toySpan 0) (toySpan 2) (toySpan 3)
        (toySpan 0) (toySpan 4)
      = Hash (toyHasher CSHA256.OUTPUT_SIZE 1)
          (Span.ofVector ((toySpan 1).bytes ++ (toySpan 0).bytes ++ (toySpan 2).bytes
            ++ (toySpan 3).bytes ++ (toySpan 0).bytes ++ (toySpan 4).bytes)) :=
  ⟨toyHasher_streaming _ _,
    (Hash_three_to_six_spans_concat (toyHasher CSHA256.OUTPUT_SIZE 1) (toyHasher_streaming _ _)
      (toySpan 1) (toySpan 0) (toySpan 2) (toySpan 3) (toySpan 0) (toySpan 4)).1,
    (Hash_three_to_six_spans_concat (toyHasher CSHA256.OUTPUT_SIZE 1) (toyHasher_streaming _ _)
      (toySpan 1) (toySpan 0) (toySpan 2) (toySpan 3) (toySpan 0) (toySpan 4)).2.2.2.1⟩

/-! ## The double-hash accumulators -/

/-- C6: for hasher classes that are streaming, ignore zero-length writes and
are restored by `Reset()`, and for every sequence of `Write` calls on a fresh
`CHash256`, `CHash1` or `CHash512`, `Finalize` outputs `P(P(m))`, where `m` is
the concatenation of the bytes written and `P` is the one-shot digest of the
accumulator's own hasher class, applied the second time to the whole
intermediate digest; hence `Hash(x)` is `SHA-256(SHA-256(x))` for every
range `x`. -/
theorem double_hash_Finalize (sha256 : Hasher CSHA256.OUTPUT_SIZE)
    (sha1 : Hasher CSHA1.OUTPUT_SIZE) (sha512 : Hasher CSHA512.OUTPUT_SIZE)
    (c256 : sha256.Contract) (c1 : sha1.Contract) (c512 : sha512.Contract)
    (ws : List (Ptr × Nat)) (x : Span) :
    (CHash256.Finalize sha256
        (ws.foldl (fun self w => CHash256.Write sha256 self w.1 w.2) sha256.init)).1
      = sha256.digest (sha256.digest (writtenBytes ws)).val ∧
    (CHash1.Finalize sha1
        (ws.foldl (fun self w => CHash1.Write sha1 self w.1 w.2) sha1.init)).1
      = sha1.digest (sha1.digest (writtenBytes ws)).val ∧
    (CHash512.Finalize sha512
        (ws.foldl (fun self w => CHash512.Write sha512 self w.1 w.2) sha512.init)).1
      = sha512.digest (sha512.digest (writtenBytes ws)).val ∧
    Hash sha256 x = sha256.digest (sha256.digest x.bytes).val := by
  obtain ⟨s256, n256, r256⟩ := c256
  obtain ⟨s1, n1, r1⟩ := c1
  obtain ⟨s512, n512, r512⟩ := c512
  refine ⟨?_, ?_, ?_, ?_⟩
  · have h := foldl_Write sha256 s256 n256 ws sha256.init
    simp only [CHash256.Write, CHash256.Finalize, Hasher.digest, h, readAll, r256 _]
  · have h := foldl_Write sha1 s1 n1 ws sha1.init
    simp only [CHash1.Write, CHash1.Finalize, Hasher.digest, h, readAll, r1 _]
  · have h := foldl_Write sha512 s512 n512 ws sha512.init
    simp only [CHash512.Write, CHash512.Finalize, Hasher.digest, h, readAll, r512 _]
  · rw [Hash_eq]
    simp only [CHash256.Finalize, Hasher.digest, readAll, r256 _]

/-- C6, at concrete inputs: the hashers `toyHasher`, three writes of 2, 0 and
3 bytes on a fresh `CHash256`, and a 5-byte range. -/
theorem double_hash_Finalize_witness :
    (toyHasher CSHA256.OUTPUT_SIZE 1).Contract ∧
    (toyHasher CSHA1.OUTPUT_SIZE 2).Contract ∧
    (toyHasher CSHA512.OUTPUT_SIZE 3).Contract ∧
    (CHash256.Finalize (toyHasher CSHA256.OUTPUT_SIZE 1)
        ([((toySpan 2).data, 2), (Ptr.sentinel, 0), ((toySpan 3).data, 3)].foldl
          (fun self w => CHash256.Write (toyHasher CSHA256.OUTPUT_SIZE 1) self w.1 w.2)
          (toyHasher CSHA256.OUTPUT_SIZE 1).init)).1
      = (toyHasher CSHA256.OUTPUT_SIZE 1).digest
          ((toyHasher CSHA256.OUTPUT_SIZE 1).digest
            (writtenBytes [((toySpan 2).data, 2), (Ptr.sentinel, 0), ((toySpan 3).data, 3)])).val ∧
    Hash (toyHasher CSHA256.OUTPUT_SIZE 1) (toySpan 5)
      = (toyHasher CSHA256.OUTPUT_SIZE 1).digest
          ((toyHasher CSHA256.OUTPUT_SIZE 1).digest (toySpan 5).bytes).val :=
  ⟨toyHasher_contract _ _, toyHasher_contract _ _, toyHasher_contract _ _,
    (double_hash_Finalize (toyHasher CSHA256.OUTPUT_SIZE 1) (toyHasher CSHA1.OUTPUT_SIZE 2)
      (toyHasher CSHA512.OUTPUT_SIZE 3) (toyHasher_contract _ _) (toyHasher_contract _ _)
      (toyHasher_contract _ _)
      [((toySpan 2).data, 2), (Ptr.sentinel, 0), ((toySpan 3).data, 3)] (toySpan 5)).1,
    (double_hash_Finalize (toyHasher CSHA256.OUTPUT_SIZE 1) (toyHasher CSHA1.OUTPUT_SIZE 2)
      (toyHasher CSHA512.OUTPUT_SIZE 3) (toyHasher_contract _ _) (toyHasher_contract _ _)
      (toyHasher_contract _ _)
      [((toySpan 2).data, 2), (Ptr.sentinel, 0), ((toySpan 3).data, 3)] (toySpan 5)).2.2.2⟩

/-- C7: for every range `x`, `Hash160(x)` is the one-shot RIPEMD-160 digest,
from a default-constructed `CRIPEMD160`, of the 32 bytes of the one-shot
SHA-256 digest of `x`; it is 20 bytes long; and `Hash160` of a byte vector is
`Hash160` of its `begin()`/`end()` range. -/
theorem Hash160_sha256_then_ripemd160 (sha : Hasher CSHA256.OUTPUT_SIZE)
    (ripemd : Hasher CRIPEMD160.OUTPUT_SIZE) (x : Span) (vch : Bytes) :
    Hash160 sha ripemd x
      = (ripemd.Finalize (ripemd.Write ripemd.init
          (sha.Finalize (sha.Write sha.init x.bytes)).1.val)).1 ∧
    (sha.Finalize (sha.Write sha.init x.bytes)).1.val.length = 32 ∧
    (Hash160 sha ripemd x).val.length = 20 ∧
    Hash160_vch sha ripemd vch = Hash160 sha ripemd (Span.ofVector vch) ∧
    Hash160_vch sha ripemd vch
      = (ripemd.Finalize (ripemd.Write ripemd.init
          (sha.Finalize (sha.Write sha.init vch)).1.val)).1 := by
  refine ⟨?_, ?_, ?_, rfl, ?_⟩
  · exact Hash160_eq sha ripemd x
  · exact (sha.Finalize (sha.Write sha.init x.bytes)).1.property
  · exact (Hash160 sha ripemd x).property
  · have h := Hash160_eq sha ripemd (Span.ofVector vch)
    rw [Span.bytes_ofVector] at h
    exact h

/-! ## Empty ranges -/

/-- C8: for an empty range `e` (`pbegin == pend`) the pointer handed to the
primitive is the sentinel `PBLANK`, not `&pbegin[0]`, and the length is 0, so
no byte is read; the one-range `Hash`, `Hash512`, `Hash1`, `Hash160` and
`HashQuark` of `e` are what the same function gives on the empty byte string;
and, the hasher classes being streaming, an empty range in any position of a
`Hash`, `Hash512` or `Hash1` overload over several ranges leaves the result
equal to that of the overload over the remaining ranges. The calls are
recorded as well: each of `Hash`, `Hash512`, `Hash1`, `Hash160` and
`HashQuark`, run with a record of every call into its primitives, returns
the same value as without the record, and on `e` the one `Write`
(respectively the Blake-512 update) that takes the input is handed the
pointer `PBLANK` with length 0, every other pointer passed being the address
of an intermediate digest, never `&pbegin[0]`. -/
theorem empty_span_hashes_as_zero_length (sha256 : Hasher CSHA256.OUTPUT_SIZE)
    (sha512 : Hasher CSHA512.OUTPUT_SIZE) (sha1 : Hasher CSHA1.OUTPUT_SIZE)
    (ripemd : Hasher CRIPEMD160.OUTPUT_SIZE) (T : SphTable)
    (h256 : sha256.Streaming) (h512 : sha512.Streaming) (h1 : sha1.Streaming)
    (e : Span) (he : e.count = 0) (a b c d f : Span) :
    e.data = Ptr.sentinel ∧ e.len = 0 ∧ e.bytes = [] ∧
    Hash sha256 e = (CHash256.Finalize sha256 (sha256.Write sha256.init [])).1 ∧
    Hash512 sha512 e = (CHash512.Finalize sha512 (sha512.Write sha512.init [])).1 ∧
    Hash1 sha1 e
      = writeInto (Vec.zero 32) (CHash1.Finalize sha1 (sha1.Write sha1.init [])).1.val ∧
    Hash160 sha256 ripemd e = ripemd.digest (sha256.digest []).val ∧
    HashQuark.stages T e 0 = T.blake512.digest [] ∧
    HashQuark T e = HashQuark T (Span.ofVector []) ∧
    Hash_2 sha256 e a = Hash sha256 a ∧
    Hash_2 sha256 a e = Hash sha256 a ∧
    Hash_3 sha256 e a b = Hash_2 sha256 a b ∧
    Hash_3 sha256 a e b = Hash_2 sha256 a b ∧
    Hash_3 sha256 a b e = Hash_2 sha256 a b ∧
    Hash_4 sha256 e a b c = Hash_3 sha256 a b c ∧
    Hash_4 sha256 a e b c = Hash_3 sha256 a b c ∧
    Hash_4 sha256 a b e c = Hash_3 sha256 a b c ∧
    Hash_4 sha256 a b c e = Hash_3 sha256 a b c ∧
    Hash_5 sha256 e a b c d = Hash_4 sha256 a b c d ∧
    Hash_5 sha256 a e b c d = Hash_4 sha256 a b c d ∧
    Hash_5 sha256 a b e c d = Hash_4 sha256 a b c d ∧
    Hash_5 sha256 a b c e d = Hash_4 sha256 a b c d ∧
    Hash_5 sha256 a b c d e = Hash_4 sha256 a b c d ∧
    Hash_6 sha256 e a b c d f = Hash_5 sha256 a b c d f ∧
    Hash_6 sha256 a e b c d f = Hash_5 sha256 a b c d f ∧
    Hash_6 sha256 a b e c d f = Hash_5 sha256 a b c d f ∧
    Hash_6 sha256 a b c e d f = Hash_5 sha256 a b c d f ∧
    Hash_6 sha256 a b c d e f = Hash_5 sha256 a b c d f ∧
    Hash_6 sha256 a b c d f e = Hash_5 sha256 a b c d f ∧
    Hash512_2 sha512 e a = Hash512 sha512 a ∧
    Hash512_2 sha512 a e = Hash512 sha512 a ∧
    Hash1_2 sha1 e a = Hash1 sha1 a ∧
    Hash1_2 sha1 a e = Hash1 sha1 a ∧
    (∀ p : Span, (Hash.run sha256 p).1 = Hash sha256 p) ∧
    (∀ p : Span, (Hash512.run sha512 p).1 = Hash512 sha512 p) ∧
    (∀ p : Span, (Hash1.run sha1 p).1 = Hash1 sha1 p) ∧
    (∀ p : Span, (Hash160.run sha256 ripemd p).1 = Hash160 sha256 ripemd p) ∧
    (∀ p : Span, (HashQuark.runData T p).1 = HashQuark.stages T p) ∧
    (Hash.run sha256 e).2
      = [HasherCall.construct HasherClass.CSHA256, HasherCall.Write HasherClass.CSHA256 Ptr.sentinel 0,
          HasherCall.Finalize HasherClass.CSHA256, HasherCall.Reset HasherClass.CSHA256,
          HasherCall.Write HasherClass.CSHA256 (Ptr.elem0 (sha256.digest []).val) CSHA256.OUTPUT_SIZE,
          HasherCall.Finalize HasherClass.CSHA256] ∧
    (Hash512.run sha512 e).2
      = [HasherCall.construct HasherClass.CSHA512, HasherCall.Write HasherClass.CSHA512 Ptr.sentinel 0,
          HasherCall.Finalize HasherClass.CSHA512, HasherCall.Reset HasherClass.CSHA512,
          HasherCall.Write HasherClass.CSHA512 (Ptr.elem0 (sha512.digest []).val) CSHA512.OUTPUT_SIZE,
          HasherCall.Finalize HasherClass.CSHA512] ∧
    (Hash1.run sha1 e).2
      = [HasherCall.construct HasherClass.CSHA1, HasherCall.Write HasherClass.CSHA1 Ptr.sentinel 0,
          HasherCall.Finalize HasherClass.CSHA1, HasherCall.Reset HasherClass.CSHA1,
          HasherCall.Write HasherClass.CSHA1 (Ptr.elem0 (sha1.digest []).val) CSHA1.OUTPUT_SIZE,
          HasherCall.Finalize HasherClass.CSHA1] ∧
    (Hash160.run sha256 ripemd e).2
      = [HasherCall.construct HasherClass.CSHA256,
          HasherCall.Write HasherClass.CSHA256 Ptr.sentinel 0,
          HasherCall.Finalize HasherClass.CSHA256,
          HasherCall.construct HasherClass.CRIPEMD160,
          HasherCall.Write HasherClass.CRIPEMD160 (Ptr.elem0 (sha256.digest []).val)
            CSHA256.OUTPUT_SIZE,
          HasherCall.Finalize HasherClass.CRIPEMD160] ∧
    (HashQuark.runData T e).2
      = SphDataCall.invocation SphAlgo.blake512 Ptr.sentinel 0 0
        ++ SphDataCall.invocation SphAlgo.bmw512 (HashQuark.stages T e 0).addr 64 1
        ++ SphDataCall.invocation
            (if uint512.and (HashQuark.stages T e 1) (uint512.ofNat 8) ≠ uint512.ofNat 0
              then SphAlgo.groestl512 else SphAlgo.skein512)
            (HashQuark.stages T e 1).addr 64 2
        ++ SphDataCall.invocation SphAlgo.groestl512 (HashQuark.stages T e 2).addr 64 3
        ++ SphDataCall.invocation SphAlgo.jh512 (HashQuark.stages T e 3).addr 64 4
        ++ SphDataCall.invocation
            (if uint512.and (HashQuark.stages T e 4) (uint512.ofNat 8) ≠ uint512.ofNat 0
              then SphAlgo.blake512 else SphAlgo.bmw512)
            (HashQuark.stages T e 4).addr 64 5
        ++ SphDataCall.invocation SphAlgo.keccak512 (HashQuark.stages T e 5).addr 64 6
        ++ SphDataCall.invocation SphAlgo.skein512 (HashQuark.stages T e 6).addr 64 7
        ++ SphDataCall.invocation
            (if uint512.and (HashQuark.stages T e 7) (uint512.ofNat 8) ≠ uint512.ofNat 0
              then SphAlgo.keccak512 else SphAlgo.jh512)
            (HashQuark.stages T e 7).addr 64 8 := by
  have he0 : e.bytes = [] := Span.bytes_of_count_zero e he
  have hdata : e.data = Ptr.sentinel := by simp [Span.data, he]
  have hlen : e.len = 0 := by simp [Span.len, he]
  have hw256 : ∀ (s : sha256.State) (x y : Bytes),
      sha256.Write (sha256.Write s x) y = sha256.Write s (x ++ y) := h256
  have hw512 : ∀ (s : sha512.State) (x y : Bytes),
      sha512.Write (sha512.Write s x) y = sha512.Write s (x ++ y) := h512
  have hw1 : ∀ (s : sha1.State) (x y : Bytes),
      sha1.Write (sha1.Write s x) y = sha1.Write s (x ++ y) := h1
  refine ⟨?_, ?_, he0, ?_, ?_, ?_, ?_, ?_, ?_, ?_, ?_, ?_, ?_, ?_, ?_, ?_, ?_, ?_, ?_, ?_, ?_, ?_, ?_, ?_, ?_, ?_, ?_, ?_, ?_, ?_, ?_, ?_, ?_, ?_, ?_, ?_, ?_, ?_, ?_, ?_, ?_, ?_, ?_⟩
  · simp [Span.data, he]
  · simp [Span.len, he]
  · rw [Hash_eq, he0]
  · rw [Hash512_eq, he0]
  · rw [Hash1_eq, he0]
  · rw [Hash160_eq, he0]
  · rw [(HashQuark_stage0_aux T e), he0]
  · have hc := HashQuark.stages_congr T e (Span.ofVector []) (by rw [he0, Span.bytes_ofVector])
    simp only [HashQuark, hc]
  · rw [Hash_2_eq, Hash_eq, he0]
    simp only [hw256, List.nil_append, List.append_nil]
  · rw [Hash_2_eq, Hash_eq, he0]
    simp only [hw256, List.nil_append, List.append_nil]
  · rw [Hash_3_eq, Hash_2_eq, he0]
    simp only [hw256, List.nil_append, List.append_nil]
  · rw [Hash_3_eq, Hash_2_eq, he0]
    simp only [hw256, List.nil_append, List.append_nil]
  · rw [Hash_3_eq, Hash_2_eq, he0]
    simp only [hw256, List.nil_append, List.append_nil]
  · rw [Hash_4_eq, Hash_3_eq, he0]
    simp only [hw256, List.nil_append, List.append_nil]
  · rw [Hash_4_eq, Hash_3_eq, he0]
    simp only [hw256, List.nil_append, List.append_nil]
  · rw [Hash_4_eq, Hash_3_eq, he0]
    simp only [hw256, List.nil_append, List.append_nil]
  · rw [Hash_4_eq, Hash_3_eq, he0]
    simp only [hw256, List.nil_append, List.append_nil]
  · rw [Hash_5_eq, Hash_4_eq, he0]
    simp only [hw256, List.nil_append, List.append_nil]
  · rw [Hash_5_eq, Hash_4_eq, he0]
    simp only [hw256, List.nil_append, List.append_nil]
  · rw [Hash_5_eq, Hash_4_eq, he0]
    simp only [hw256, List.nil_append, List.append_nil]
  · rw [Hash_5_eq, Hash_4_eq, he0]
    simp only [hw256, List.nil_append, List.append_nil]
  · rw [Hash_5_eq, Hash_4_eq, he0]
    simp only [hw256, List.nil_append, List.append_nil]
  · rw [Hash_6_eq, Hash_5_eq, he0]
    simp only [hw256, List.nil_append, List.append_nil]
  · rw [Hash_6_eq, Hash_5_eq, he0]
    simp only [hw256, List.nil_append, List.append_nil]
  · rw [Hash_6_eq, Hash_5_eq, he0]
    simp only [hw256, List.nil_append, List.append_nil]
  · rw [Hash_6_eq, Hash_5_eq, he0]
    simp only [hw256, List.nil_append, List.append_nil]
  · rw [Hash_6_eq, Hash_5_eq, he0]
    simp only [hw256, List.nil_append, List.append_nil]
  · rw [Hash_6_eq, Hash_5_eq, he0]
    simp only [hw256, List.nil_append, List.append_nil]
  · rw [Hash512_2_eq, Hash512_eq, he0]
    simp only [hw512, List.nil_append, List.append_nil]
  · rw [Hash512_2_eq, Hash512_eq, he0]
    simp only [hw512, List.nil_append, List.append_nil]
  · rw [Hash1_2_eq, Hash1_eq, he0]
    simp only [hw1, List.nil_append, List.append_nil]
  · rw [Hash1_2_eq, Hash1_eq, he0]
    simp only [hw1, List.nil_append, List.append_nil]
  · exact fun p => Hash_run_fst sha256 p
  · exact fun p => Hash512_run_fst sha512 p
  · exact fun p => Hash1_run_fst sha1 p
  · exact fun p => Hash160_run_fst sha256 ripemd p
  · exact fun p => HashQuark.runData_fst T p
  · rw [Hash_run_snd, hdata, hlen, he0]
  · rw [Hash512_run_snd, hdata, hlen, he0]
  · rw [Hash1_run_snd, hdata, hlen, he0]
  · rw [Hash160_run_snd, hdata, hlen, he0]
  · rw [HashQuark.runData_snd, hdata, hlen]

/-- C8, at concrete inputs: the hashers `toyHasher`, the table `toyTable`, an
empty range of 4-byte elements, and ranges of 1 to 5 bytes around it. -/
theorem empty_span_hashes_as_zero_length_witness :
    (toyHasher CSHA256.OUTPUT_SIZE 1).Streaming ∧
    (toyHasher CSHA512.OUTPUT_SIZE 2).Streaming ∧
    (toyHasher CSHA1.OUTPUT_SIZE 3).Streaming ∧
    (Span.mk 4 0 []).count = 0 ∧
    (Span.mk 4 0 []).data = Ptr.sentinel ∧
    (Span.mk 4 0 []).len = 0 ∧
    Hash_2 (toyHasher CSHA256.OUTPUT_SIZE 1) (Span.mk 4 0 []) (toySpan 1)
      = Hash (toyHasher CSHA256.OUTPUT_SIZE 1) (toySpan 1) ∧
    (Hash.run (toyHasher CSHA256.OUTPUT_SIZE 1) (Span.mk 4 0 [])).2
      = [HasherCall.construct HasherClass.CSHA256,
          HasherCall.Write HasherClass.CSHA256 Ptr.sentinel 0,
          HasherCall.Finalize HasherClass.CSHA256, HasherCall.Reset HasherClass.CSHA256,
          HasherCall.Write HasherClass.CSHA256
            (Ptr.elem0 ((toyHasher CSHA256.OUTPUT_SIZE 1).digest []).val) CSHA256.OUTPUT_SIZE,
          HasherCall.Finalize HasherClass.CSHA256] ∧
    (Hash160.run (toyHasher CSHA256.OUTPUT_SIZE 1) (toyHasher CRIPEMD160.OUTPUT_SIZE 4)
        (Span.mk 4 0 [])).2
      = [HasherCall.construct HasherClass.CSHA256,
          HasherCall.Write HasherClass.CSHA256 Ptr.sentinel 0,
          HasherCall.Finalize HasherClass.CSHA256,
          HasherCall.construct HasherClass.CRIPEMD160,
          HasherCall.Write HasherClass.CRIPEMD160
            (Ptr.elem0 ((toyHasher CSHA256.OUTPUT_SIZE 1).digest []).val) CSHA256.OUTPUT_SIZE,
          HasherCall.Finalize HasherClass.CRIPEMD160] ∧
    (HashQuark.runData toyTable (Span.mk 4 0 [])).2.take 3
      = [SphDataCall.init SphAlgo.blake512, SphDataCall.update SphAlgo.blake512 Ptr.sentinel 0,
          SphDataCall.close SphAlgo.blake512 0] := by
  have h := empty_span_hashes_as_zero_length (toyHasher CSHA256.OUTPUT_SIZE 1)
    (toyHasher CSHA512.OUTPUT_SIZE 2) (toyHasher CSHA1.OUTPUT_SIZE 3)
    (toyHasher CRIPEMD160.OUTPUT_SIZE 4) toyTable (toyHasher_streaming _ _)
    (toyHasher_streaming _ _) (toyHasher_streaming _ _) (Span.mk 4 0 []) rfl
    (toySpan 1) (toySpan 2) (toySpan 3) (toySpan 4) (toySpan 5)
  have hq := h.2.2.2.2.2.2.2.2.2.2.2.2.2.2.2.2.2.2.2.2.2.2.2.2.2.2.2.2.2.2.2.2.2.2.2.2.2.2.2.2.2.2
  refine ⟨toyHasher_streaming _ _, toyHasher_streaming _ _, toyHasher_streaming _ _, rfl,
    h.1, h.2.1, h.2.2.2.2.2.2.2.2.2.1,
    h.2.2.2.2.2.2.2.2.2.2.2.2.2.2.2.2.2.2.2.2.2.2.2.2.2.2.2.2.2.2.2.2.2.2.2.2.2.2.1,
    h.2.2.2.2.2.2.2.2.2.2.2.2.2.2.2.2.2.2.2.2.2.2.2.2.2.2.2.2.2.2.2.2.2.2.2.2.2.2.2.2.2.1, ?_⟩
  rw [hq]
  simp only [SphDataCall.invocation, List.append_assoc, List.cons_append, List.nil_append,
    List.take_succ_cons, List.take_zero]

/-! ## The scrypt dispatchers -/

/-- C9: for every range whose byte length `(pend - pbegin) * sizeof(pbegin[0])`
is not 80, `HashScrypt` and `HashScryptSquared` take the fallback path: they
return the reference `scrypt_hash` of the same input with cost factor 1024,
respectively 1048576, after logging the fallback, and the optimised
`scryptHash` is not called. -/
theorem HashScrypt_length_not_80_fallback (L : ScryptLib) (p : Span) (h : p.len ≠ 80) :
    HashScrypt L p
      = (scrypt_hash L p.data p.len 1024,
          [Call.LogPrintf
            "Falling back to original implementation to generate normal scrypt hash\n",
            Call.scrypt_hash p.data p.len 1024]) ∧
    HashScryptSquared L p
      = (scrypt_hash L p.data p.len 1048576,
          [Call.LogPrintf
            "Falling back to original implementation to generate scrypt² hash\n",
            Call.scrypt_hash p.data p.len 1048576]) ∧
    (∀ (q : Ptr) (N : Nat), Call.scryptHash q N ∉ (HashScrypt L p).2) ∧
    (∀ (q : Ptr) (N : Nat), Call.scryptHash q N ∉ (HashScryptSquared L p).2) := by
  have e1 : HashScrypt L p
      = (scrypt_hash L p.data p.len 1024,
          [Call.LogPrintf
            "Falling back to original implementation to generate normal scrypt hash\n",
            Call.scrypt_hash p.data p.len 1024]) := by
    simp [HashScrypt, h]
  have e2 : HashScryptSquared L p
      = (scrypt_hash L p.data p.len 1048576,
          [Call.LogPrintf
            "Falling back to original implementation to generate scrypt² hash\n",
            Call.scrypt_hash p.data p.len 1048576]) := by
    simp [HashScryptSquared, h]
  refine ⟨e1, e2, ?_, ?_⟩
  · intro q N
    rw [e1]
    simp
  · intro q N
    rw [e2]
    simp

/-- C9, at concrete inputs: ranges of 79 and of 81 bytes, with an optimised
path that would have succeeded. -/
theorem HashScrypt_length_not_80_fallback_witness :
    (toySpan 79).len ≠ 80 ∧ (toySpan 81).len ≠ 80 ∧
    (HashScrypt (toyScrypt true false) (toySpan 79)).1
      = scrypt_hash (toyScrypt true false) (toySpan 79).data (toySpan 79).len 1024 ∧
    (HashScryptSquared (toyScrypt true false) (toySpan 81)).1
      = scrypt_hash (toyScrypt true false) (toySpan 81).data (toySpan 81).len 1048576 :=
  ⟨by decide, by decide,
    congrArg Prod.fst
      (HashScrypt_length_not_80_fallback (toyScrypt true false) (toySpan 79) (by decide)).1,
    congrArg Prod.fst
      (HashScrypt_length_not_80_fallback (toyScrypt true false) (toySpan 81) (by decide)).2.1⟩

/-- C10: for every range of exactly 80 bytes, if the optimised `scryptHash`
answers false or leaves the all-zero digest, `HashScrypt` returns the
reference `scrypt_hash` of the same input with cost factor 1024, having
called `scryptHash`, logged the fallback and called `scrypt_hash`; likewise
`HashScryptSquared` with cost factor 1048576. -/
theorem HashScrypt_degenerate_fast_path_fallback (L : ScryptLib) (p : Span)
    (h80 : p.len = 80) :
    (fastPathDegenerate L p 1024 →
      HashScrypt L p
        = (scrypt_hash L p.data p.len 1024,
            [Call.scryptHash (Ptr.elem0 p.mem) 1024,
              Call.LogPrintf
                "Falling back to original implementation to generate normal scrypt hash\n",
              Call.scrypt_hash p.data p.len 1024])) ∧
    (fastPathDegenerate L p 1048576 →
      HashScryptSquared L p
        = (scrypt_hash L p.data p.len 1048576,
            [Call.scryptHash (Ptr.elem0 p.mem) 1048576,
              Call.LogPrintf
                "Falling back to original implementation to generate scrypt² hash\n",
              Call.scrypt_hash p.data p.len 1048576])) := by
  constructor
  · intro hd
    unfold fastPathDegenerate at hd
    rcases hd with hf | hz
    · simp [HashScrypt, h80, hf]
    · by_cases hf : (L.scryptHash ((Ptr.elem0 p.mem).read 80) (Vec.zero 32) 1024).1 = false
      · simp [HashScrypt, h80, hf]
      · simp [HashScrypt, h80, hf, hz]
  · intro hd
    unfold fastPathDegenerate at hd
    rcases hd with hf | hz
    · simp [HashScryptSquared, h80, hf]
    · by_cases hf : (L.scryptHash ((Ptr.elem0 p.mem).read 80) (Vec.zero 32) 1048576).1 = false
      · simp [HashScryptSquared, h80, hf]
      · simp [HashScryptSquared, h80, hf, hz]

set_option maxRecDepth 100000 in
/-- C10, at concrete inputs: an 80-byte range, with an optimised path that
succeeds but leaves the all-zero digest (for `HashScrypt`) and one that
answers false (for `HashScryptSquared`); the values returned are the
reference digests, which are not zero. -/
theorem HashScrypt_degenerate_fast_path_fallback_witness :
    (toySpan 80).len = 80 ∧
    fastPathDegenerate (toyScrypt true true) (toySpan 80) 1024 ∧
    fastPathDegenerate (toyScrypt false false) (toySpan 80) 1048576 ∧
    (HashScrypt (toyScrypt true true) (toySpan 80)).1
      = scrypt_hash (toyScrypt true true) (toySpan 80).data (toySpan 80).len 1024 ∧
    (HashScryptSquared (toyScrypt false false) (toySpan 80)).1
      = scrypt_hash (toyScrypt false false) (toySpan 80).data (toySpan 80).len 1048576 ∧
    (HashScrypt (toyScrypt true true) (toySpan 80)).1 ≠ ZERO :=
  ⟨by decide, Or.inr rfl, Or.inl rfl,
    congrArg Prod.fst
      ((HashScrypt_degenerate_fast_path_fallback (toyScrypt true true) (toySpan 80)
        (by decide)).1 (Or.inr rfl)),
    congrArg Prod.fst
      ((HashScrypt_degenerate_fast_path_fallback (toyScrypt false false) (toySpan 80)
        (by decide)).2 (Or.inl rfl)),
    by decide⟩

/-! ## The salted scrypt rounds and the cost parameters -/

/-- C11: for every input, salt and round count `k + 1` (that is, every round
count of at least 1), `scrypt_salted_multiround_hash` returns element `k + 1`
of the chain `d1 = scrypt_salted_hash(input, salt)`,
`d(i+1) = scrypt_salted_hash(input, the 32 bytes of d(i) as salt)`; round
count 1 gives the single-round salted result, and round count 3 gives three
single-round applications chained digest-as-salt. -/
theorem scrypt_salted_multiround_hash_chain (L : ScryptLib) (input : Ptr) (inputlen : Nat)
    (salt : Ptr) (saltlen : Nat) (k : Nat) :
    scrypt_salted_multiround_hash L input inputlen salt saltlen (k + 1)
      = saltedChain L input inputlen salt saltlen k ∧
    scrypt_salted_multiround_hash L input inputlen salt saltlen 1
      = scrypt_salted_hash L input inputlen salt saltlen ∧
    scrypt_salted_multiround_hash L input inputlen salt saltlen 3
      = scrypt_salted_hash L input inputlen
          (Ptr.elem0
            (scrypt_salted_hash L input inputlen
              (Ptr.elem0 (scrypt_salted_hash L input inputlen salt saltlen).val) 32).val)
          32 := by
  refine ⟨?_, ?_, ?_⟩
  · exact scrypt_salted_multiround_hash_eq L input inputlen salt saltlen (k + 1)
  · exact scrypt_salted_multiround_hash_eq L input inputlen salt saltlen 1
  · exact scrypt_salted_multiround_hash_eq L input inputlen salt saltlen 3

/-- C12: `scrypt_hash(input, len, N)` is the 32-byte output of `scrypt` called
with the input as password and as salt, cost factor `N`, `r = 1`, `p = 1`,
and `N` is 1024 when omitted; `scrypt_salted_hash` is the 32-byte output of
`scrypt` with the caller's salt, `N = 1024`, `r = 1`, `p = 1`; and whenever
`HashScryptSquared` calls `scrypt_hash`, it is on its own input with
`N = 1048576 = 1024 * 1024`, and that call's result is returned. -/
theorem scrypt_cost_parameters (L : ScryptLib) (input : Ptr) (inputlen : Nat) (salt : Ptr)
    (saltlen : Nat) (N : Nat) (p : Span) :
    scrypt_hash L input inputlen N
      = L.scrypt (input.read inputlen) (input.read inputlen) N 1 1 32 ∧
    scrypt_hash L input inputlen
      = L.scrypt (input.read inputlen) (input.read inputlen) 1024 1 1 32 ∧
    scrypt_salted_hash L input inputlen salt saltlen
      = L.scrypt (input.read inputlen) (salt.read saltlen) 1024 1 1 32 ∧
    (∀ (q : Ptr) (len M : Nat), Call.scrypt_hash q len M ∈ (HashScryptSquared L p).2 →
      q = p.data ∧ len = p.len ∧ M = 1048576 ∧
        (HashScryptSquared L p).1 = scrypt_hash L p.data p.len 1048576) ∧
    (1048576 : Nat) = 1024 * 1024 := by
  refine ⟨writeInto_val _ _, writeInto_val _ _, writeInto_val _ _, ?_, by norm_num⟩
  intro q len M hmem
  by_cases h80 : p.len = 80
  · by_cases hf : (L.scryptHash ((Ptr.elem0 p.mem).read 80) (Vec.zero 32) 1048576).1 = false
    · simp [HashScryptSquared, h80, hf] at hmem ⊢
      exact hmem
    · by_cases hz : (L.scryptHash ((Ptr.elem0 p.mem).read 80) (Vec.zero 32) 1048576).2 = ZERO
      · simp [HashScryptSquared, h80, hf, hz] at hmem ⊢
        exact hmem
      · simp [HashScryptSquared, h80, hf, hz] at hmem
  · simp [HashScryptSquared, h80] at hmem ⊢
    exact hmem

/-- C12, at concrete inputs: on a 79-byte range `HashScryptSquared` does call
`scrypt_hash`, and what the theorem says of that call holds. -/
theorem scrypt_cost_parameters_witness :
    Call.scrypt_hash (toySpan 79).data (toySpan 79).len 1048576
      ∈ (HashScryptSquared (toyScrypt true false) (toySpan 79)).2 ∧
    (HashScryptSquared (toyScrypt true false) (toySpan 79)).1
      = scrypt_hash (toyScrypt true false) (toySpan 79).data (toySpan 79).len 1048576 := by
  have hmem : Call.scrypt_hash (toySpan 79).data (toySpan 79).len 1048576
      ∈ (HashScryptSquared (toyScrypt true false) (toySpan 79)).2 := by
    have h79 : (toySpan 79).len ≠ 80 := by decide
    simp [HashScryptSquared, h79]
  exact ⟨hmem,
    ((scrypt_cost_parameters (toyScrypt true false) Ptr.sentinel 0 Ptr.sentinel 0 1024
      (toySpan 79)).2.2.2.1 _ _ _ hmem).2.2.2⟩

/-- C19: for every input and salt, `scrypt_salted_multiround_hash` with round
count 0 gives the same result as with round count 1, namely
`scrypt_salted_hash(input, salt)`: one round is always performed. -/
theorem scrypt_salted_multiround_hash_zero_rounds (L : ScryptLib) (input : Ptr)
    (inputlen : Nat) (salt : Ptr) (saltlen : Nat) :
    scrypt_salted_multiround_hash L input inputlen salt saltlen 0
      = scrypt_salted_multiround_hash L input inputlen salt saltlen 1 ∧
    scrypt_salted_multiround_hash L input inputlen salt saltlen 1
      = scrypt_salted_hash L input inputlen salt saltlen := by
  have h0 := scrypt_salted_multiround_hash_eq L input inputlen salt saltlen 0
  have h1 := scrypt_salted_multiround_hash_eq L input inputlen salt saltlen 1
  exact ⟨h0.trans h1.symm, h1⟩

/-- C20: for every range of exactly 80 bytes on which the optimised
`scryptHash` answers true and leaves a digest that is not all zero,
`HashScrypt` returns exactly that digest and its only call is the one to
`scryptHash`, so the reference `scrypt_hash` is not called; likewise
`HashScryptSquared` with cost factor 1048576. -/
theorem HashScrypt_valid_fast_path_returned (L : ScryptLib) (p : Span) (h80 : p.len = 80) :
    (fastPathValid L p 1024 →
      HashScrypt L p
        = ((L.scryptHash ((Ptr.elem0 p.mem).read 80) (Vec.zero 32) 1024).2,
            [Call.scryptHash (Ptr.elem0 p.mem) 1024]) ∧
      ∀ (q : Ptr) (len N : Nat), Call.scrypt_hash q len N ∉ (HashScrypt L p).2) ∧
    (fastPathValid L p 1048576 →
      HashScryptSquared L p
        = ((L.scryptHash ((Ptr.elem0 p.mem).read 80) (Vec.zero 32) 1048576).2,
            [Call.scryptHash (Ptr.elem0 p.mem) 1048576]) ∧
      ∀ (q : Ptr) (len N : Nat), Call.scrypt_hash q len N ∉ (HashScryptSquared L p).2) := by
  constructor
  · intro hv
    obtain ⟨hok, hnz⟩ := hv
    have e : HashScrypt L p
        = ((L.scryptHash ((Ptr.elem0 p.mem).read 80) (Vec.zero 32) 1024).2,
            [Call.scryptHash (Ptr.elem0 p.mem) 1024]) := by
      simp [HashScrypt, h80, hok, hnz]
    refine ⟨e, ?_⟩
    intro q len N
    rw [e]
    simp
  · intro hv
    obtain ⟨hok, hnz⟩ := hv
    have e : HashScryptSquared L p
        = ((L.scryptHash ((Ptr.elem0 p.mem).read 80) (Vec.zero 32) 1048576).2,
            [Call.scryptHash (Ptr.elem0 p.mem) 1048576]) := by
      simp [HashScryptSquared, h80, hok, hnz]
    refine ⟨e, ?_⟩
    intro q len N
    rw [e]
    simp

set_option maxRecDepth 100000 in
/-- C20, at concrete inputs: an 80-byte range and an optimised path that
succeeds with a digest that is not all zero. -/
theorem HashScrypt_valid_fast_path_returned_witness :
    (toySpan 80).len = 80 ∧
    fastPathValid (toyScrypt true false) (toySpan 80) 1024 ∧
    fastPathValid (toyScrypt true false) (toySpan 80) 1048576 ∧
    (HashScrypt (toyScrypt true false) (toySpan 80)).1
      = ((toyScrypt true false).scryptHash ((Ptr.elem0 (toySpan 80).mem).read 80)
          (Vec.zero 32) 1024).2 ∧
    (HashScryptSquared (toyScrypt true false) (toySpan 80)).1
      = ((toyScrypt true false).scryptHash ((Ptr.elem0 (toySpan 80).mem).read 80)
          (Vec.zero 32) 1048576).2 :=
  ⟨by decide, ⟨rfl, by decide⟩, ⟨rfl, by decide⟩,
    congrArg Prod.fst
      ((HashScrypt_valid_fast_path_returned (toyScrypt true false) (toySpan 80)
        (by decide)).1 ⟨rfl, by decide⟩).1,
    congrArg Prod.fst
      ((HashScrypt_valid_fast_path_returned (toyScrypt true false) (toySpan 80)
        (by decide)).2 ⟨rfl, by decide⟩).1⟩

/-! ## Argon2d -/

/-- C13: for every input range, `HashArgon2d` returns what one call of
`argon2d_hash_raw` leaves in a 32-byte result, the call being made with time
cost 1, memory cost 4096, parallelism 1, the range's pointer and byte length
both as password and as salt, and output length 32; for an empty range both
pointers are the sentinel `PBLANK` with length 0, otherwise both are
`&pbegin[0]`. -/
theorem HashArgon2d_parameters (A : Argon2Lib) (p : Span) :
    HashArgon2d A p
      = (A.argon2d_hash_raw 1 4096 1 p.data p.len p.data p.len (Vec.zero 32) 32).2 ∧
    (p.count = 0 → p.data = Ptr.sentinel ∧ p.len = 0) ∧
    (p.count ≠ 0 → p.data = Ptr.elem0 p.mem) := by
  refine ⟨rfl, ?_, ?_⟩
  · intro h
    simp [Span.data, Span.len, h]
  · intro h
    simp [Span.data, h]

/-- C13, at concrete inputs: an empty range of 4-byte elements and a 5-byte
range. -/
theorem HashArgon2d_parameters_witness :
    (Span.mk 4 0 []).count = 0 ∧ (toySpan 5).count ≠ 0 ∧
    ((Span.mk 4 0 []).data = Ptr.sentinel ∧ (Span.mk 4 0 []).len = 0) ∧
    (toySpan 5).data = Ptr.elem0 (toySpan 5).mem ∧
    HashArgon2d toyArgon2 (toySpan 5)
      = (toyArgon2.argon2d_hash_raw 1 4096 1 (toySpan 5).data (toySpan 5).len
          (toySpan 5).data (toySpan 5).len (Vec.zero 32) 32).2 :=
  ⟨rfl, by decide, (HashArgon2d_parameters toyArgon2 (Span.mk 4 0 [])).2.1 rfl,
    (HashArgon2d_parameters toyArgon2 (toySpan 5)).2.2 (by decide),
    (HashArgon2d_parameters toyArgon2 (toySpan 5)).1⟩

/-! ## Reset and the hash writer -/

/-- C14: when `Reset()` of the underlying hasher class restores its initial
state, then for `CHash256`, `CHash1`, `CHash512` and `CHash160`, for every
sequence of prior writes and every later write `y`, writing the sequence,
calling `Reset`, writing `y` and finalizing gives what writing `y` to a fresh
accumulator and finalizing gives. -/
theorem Reset_discards_prior_writes (sha256 : Hasher CSHA256.OUTPUT_SIZE)
    (sha1 : Hasher CSHA1.OUTPUT_SIZE) (sha512 : Hasher CSHA512.OUTPUT_SIZE)
    (ripemd : Hasher CRIPEMD160.OUTPUT_SIZE)
    (r256 : sha256.ResetInit) (r1 : sha1.ResetInit) (r512 : sha512.ResetInit)
    (ws : List (Ptr × Nat)) (y : Ptr × Nat) :
    CHash256.Finalize sha256
        (CHash256.Write sha256
          (CHash256.Reset sha256
            (ws.foldl (fun self w => CHash256.Write sha256 self w.1 w.2) sha256.init))
          y.1 y.2)
      = CHash256.Finalize sha256 (CHash256.Write sha256 sha256.init y.1 y.2) ∧
    CHash1.Finalize sha1
        (CHash1.Write sha1
          (CHash1.Reset sha1
            (ws.foldl (fun self w => CHash1.Write sha1 self w.1 w.2) sha1.init))
          y.1 y.2)
      = CHash1.Finalize sha1 (CHash1.Write sha1 sha1.init y.1 y.2) ∧
    CHash512.Finalize sha512
        (CHash512.Write sha512
          (CHash512.Reset sha512
            (ws.foldl (fun self w => CHash512.Write sha512 self w.1 w.2) sha512.init))
          y.1 y.2)
      = CHash512.Finalize sha512 (CHash512.Write sha512 sha512.init y.1 y.2) ∧
    CHash160.Finalize sha256 ripemd
        (CHash160.Write sha256
          (CHash160.Reset sha256
            (ws.foldl (fun self w => CHash160.Write sha256 self w.1 w.2) sha256.init))
          y.1 y.2)
      = CHash160.Finalize sha256 ripemd (CHash160.Write sha256 sha256.init y.1 y.2) := by
  refine ⟨?_, ?_, ?_, ?_⟩
  · simp only [CHash256.Reset, r256 _]
  · simp only [CHash1.Reset, r1 _]
  · simp only [CHash512.Reset, r512 _]
  · simp only [CHash160.Reset, r256 _]

/-- C14, at concrete inputs: the hashers `toyHasher`, two prior writes of 3
and 2 bytes, then a write of 4 bytes after `Reset`. -/
theorem Reset_discards_prior_writes_witness :
    (toyHasher CSHA256.OUTPUT_SIZE 1).ResetInit ∧
    (toyHasher CSHA1.OUTPUT_SIZE 2).ResetInit ∧
    (toyHasher CSHA512.OUTPUT_SIZE 3).ResetInit ∧
    CHash256.Finalize (toyHasher CSHA256.OUTPUT_SIZE 1)
        (CHash256.Write (toyHasher CSHA256.OUTPUT_SIZE 1)
          (CHash256.Reset (toyHasher CSHA256.OUTPUT_SIZE 1)
            ([((toySpan 3).data, 3), ((toySpan 2).data, 2)].foldl
              (fun self w => CHash256.Write (toyHasher CSHA256.OUTPUT_SIZE 1) self w.1 w.2)
              (toyHasher CSHA256.OUTPUT_SIZE 1).init))
          (toySpan 4).data 4)
      = CHash256.Finalize (toyHasher CSHA256.OUTPUT_SIZE 1)
          (CHash256.Write (toyHasher CSHA256.OUTPUT_SIZE 1)
            (toyHasher CSHA256.OUTPUT_SIZE 1).init (toySpan 4).data 4) :=
  ⟨toyHasher_resetInit _ _, toyHasher_resetInit _ _, toyHasher_resetInit _ _,
    (Reset_discards_prior_writes (toyHasher CSHA256.OUTPUT_SIZE 1)
      (toyHasher CSHA1.OUTPUT_SIZE 2) (toyHasher CSHA512.OUTPUT_SIZE 3)
      (toyHasher CRIPEMD160.OUTPUT_SIZE 4) (toyHasher_resetInit _ _) (toyHasher_resetInit _ _)
      (toyHasher_resetInit _ _) [((toySpan 3).data, 3), ((toySpan 2).data, 2)]
      ((toySpan 4).data, 4)).1⟩

/-- C15: when `CSHA256` is streaming, and the serialization of the value
emits at least one chunk or a zero-length write changes nothing, then
`SerializeHash` of the value equals the one-range `Hash` of a byte vector
holding the chunks written through `CHashWriter::write`, concatenated in
order, however the serialization splits them. -/
theorem SerializeHash_eq_Hash_of_chunks (sha : Hasher CSHA256.OUTPUT_SIZE) {T : Type}
    (Serialize : Serializer T) (obj : T) (nType nVersion : Int) (hs : sha.Streaming)
    (hne : Serialize obj nType nVersion ≠ [] ∨ sha.WriteNil) :
    SerializeHash sha Serialize obj nType nVersion
      = Hash sha (Span.ofVector (writtenBytes (Serialize obj nType nVersion))) := by
  have hctx : ((CHashWriter.new sha nType nVersion).shiftLeft Serialize obj).ctx
      = sha.Write sha.init (writtenBytes (Serialize obj nType nVersion)) := by
    simp only [CHashWriter.shiftLeft, CHashWriter.foldl_write_ctx, CHashWriter.new]
    cases hl : Serialize obj nType nVersion with
    | nil =>
      rcases hne with h | h
      · exact absurd hl h
      · simp [writtenBytes, h sha.init]
    | cons w tl => exact foldl_Write_cons sha hs w tl sha.init
  rw [Hash_eq, Span.bytes_ofVector]
  simp only [SerializeHash, CHashWriter.GetHash, hctx]
  exact writeInto_val _ _

/-- C15, at concrete inputs: the streaming hasher `toyHasher` and a 5-byte
value serialized as a chunk of 2 bytes followed by a chunk of 3 bytes. -/
theorem SerializeHash_eq_Hash_of_chunks_witness :
    (toyHasher CSHA256.OUTPUT_SIZE 1).Streaming ∧
    (toySerialize (toySpan 5).mem 2 0 ≠ [] ∨ (toyHasher CSHA256.OUTPUT_SIZE 1).WriteNil) ∧
    SerializeHash (toyHasher CSHA256.OUTPUT_SIZE 1) toySerialize (toySpan 5).mem 2 0
      = Hash (toyHasher CSHA256.OUTPUT_SIZE 1)
          (Span.ofVector (writtenBytes (toySerialize (toySpan 5).mem 2 0))) :=
  ⟨toyHasher_streaming _ _, Or.inr (toyHasher_writeNil _ _),
    SerializeHash_eq_Hash_of_chunks (toyHasher CSHA256.OUTPUT_SIZE 1) toySerialize
      (toySpan 5).mem 2 0 (toyHasher_streaming _ _) (Or.inr (toyHasher_writeNil _ _))⟩

/-! ## RandomX -/

/-- C16 (as stated, refuted): with the shared `vm` null, `HashRandomX` on a
3-byte range does call `randomx_calculate_hash`, on the null machine, and
makes no other call: nothing is reported. -/
theorem HashRandomX_null_vm_still_calls :
    (HashRandomX toyRandomX none (toySpan 3)).2
      = [RandomXCall.randomx_calculate_hash none (toySpan 3).data 3] := by
  rfl

/-- C16 (amended): `HashRandomX` makes no check of the shared `vm`: for every
`vm`, null included, and every range, it calls `randomx_calculate_hash` once,
with that `vm`, the range's pointer and byte length, and returns what the
call leaves in `result`. -/
theorem HashRandomX_calls_unconditionally (R : RandomXLib) (vm : Option R.VM) (p : Span) :
    HashRandomX R vm p
      = (R.randomx_calculate_hash vm p.data p.len (Vec.zero 32),
          [RandomXCall.randomx_calculate_hash vm p.data p.len]) := by
  rfl

/-! ## The shape of the cascade -/

/-- C17: for every table of primitives and every input range, the calls
`HashQuark` makes into the 512-bit primitives are exactly 9 invocations, each
an init, one update and a close filling `hash[0]` to `hash[8]` in turn, 27
calls in all; the primitive is fixed at stages 0, 1, 3, 4, 6 and 7 and is
chosen by the mask test on the previous stage at stages 2, 5 and 8 only; and
the array computed along with the record is the one `HashQuark` truncates. -/
theorem HashQuark_nine_invocations (T : SphTable) (s : Span) :
    (HashQuark.run T s).1 = HashQuark.stages T s ∧
    (HashQuark.run T s).2
      = SphCall.invocation SphAlgo.blake512 s.len 0
        ++ SphCall.invocation SphAlgo.bmw512 64 1
        ++ SphCall.invocation
            (if uint512.and (HashQuark.stages T s 1) (uint512.ofNat 8) ≠ uint512.ofNat 0
              then SphAlgo.groestl512 else SphAlgo.skein512) 64 2
        ++ SphCall.invocation SphAlgo.groestl512 64 3
        ++ SphCall.invocation SphAlgo.jh512 64 4
        ++ SphCall.invocation
            (if uint512.and (HashQuark.stages T s 4) (uint512.ofNat 8) ≠ uint512.ofNat 0
              then SphAlgo.blake512 else SphAlgo.bmw512) 64 5
        ++ SphCall.invocation SphAlgo.keccak512 64 6
        ++ SphCall.invocation SphAlgo.skein512 64 7
        ++ SphCall.invocation
            (if uint512.and (HashQuark.stages T s 7) (uint512.ofNat 8) ≠ uint512.ofNat 0
              then SphAlgo.keccak512 else SphAlgo.jh512) 64 8 ∧
    (HashQuark.run T s).2.countP SphCall.isInit = 9 ∧
    (HashQuark.run T s).2.countP SphCall.isUpdate = 9 ∧
    (HashQuark.run T s).2.countP SphCall.isClose = 9 ∧
    (HashQuark.run T s).2.length = 27 := by
  refine ⟨HashQuark.run_fst T s, HashQuark.run_snd T s, ?_, ?_, ?_, ?_⟩ <;>
    rw [HashQuark.run_snd] <;>
    simp [SphCall.invocation, SphCall.isInit, SphCall.isUpdate, SphCall.isClose]

/-- C18: the branch mask of `HashQuark` is the 512-bit value 8, whose only set
bit is bit 3; for every 512-bit value `h`, `(h & mask) != 0` holds exactly
when bit 3 of `h` is set, so two values that agree on bit 3 take the same
branch; and at stages 2, 5 and 8 `HashQuark` takes the first primitive of the
pair exactly when bit 3 of the previous stage is set. -/
theorem HashQuark_mask_is_bit_3 (T : SphTable) (s : Span) :
    leValue (uint512.ofNat 8).val = 8 ∧
    (∀ i : Nat, (leValue (uint512.ofNat 8).val).testBit i = true ↔ i = 3) ∧
    (∀ h : uint512,
      uint512.and h (uint512.ofNat 8) ≠ uint512.ofNat 0
        ↔ (leValue h.val).testBit 3 = true) ∧
    (∀ h k : uint512, (leValue h.val).testBit 3 = (leValue k.val).testBit 3 →
      (uint512.and h (uint512.ofNat 8) ≠ uint512.ofNat 0
        ↔ uint512.and k (uint512.ofNat 8) ≠ uint512.ofNat 0)) ∧
    HashQuark.stages T s 2
      = (if (leValue (HashQuark.stages T s 1).val).testBit 3 = true
          then T.groestl512.digest (HashQuark.stages T s 1).val
          else T.skein512.digest (HashQuark.stages T s 1).val) ∧
    HashQuark.stages T s 5
      = (if (leValue (HashQuark.stages T s 4).val).testBit 3 = true
          then T.blake512.digest (HashQuark.stages T s 4).val
          else T.bmw512.digest (HashQuark.stages T s 4).val) ∧
    HashQuark.stages T s 8
      = (if (leValue (HashQuark.stages T s 7).val).testBit 3 = true
          then T.keccak512.digest (HashQuark.stages T s 7).val
          else T.jh512.digest (HashQuark.stages T s 7).val) := by
  have hv : leValue (uint512.ofNat 8).val = 8 := by
    have hz := leBytes_zero 63
    have h8 : (uint512.ofNat 8).val = 8 :: List.replicate 63 0 := by
      simp only [uint512.ofNat, leBytes, hz]
      rfl
    rw [h8]
    simp only [leValue, leValue_replicate_zero, Nat.mul_zero, Nat.add_zero]
    rfl
  have hstages : ∀ i : Fin 9, ∀ x y : uint512,
      (if uint512.and (HashQuark.stages T s i) (uint512.ofNat 8) ≠ uint512.ofNat 0 then x else y)
        = (if (leValue (HashQuark.stages T s i).val).testBit 3 = true then x else y) := by
    intro i x y
    by_cases hb : (leValue (HashQuark.stages T s i).val).testBit 3 = true
    · rw [if_pos ((uint512.and_mask_ne_zero_iff _).2 hb), if_pos hb]
    · rw [if_neg (fun hc => hb ((uint512.and_mask_ne_zero_iff _).1 hc)), if_neg hb]
  have hchain : HashQuark.stages T s 2
        = (if uint512.and (HashQuark.stages T s 1) (uint512.ofNat 8) ≠ uint512.ofNat 0
            then T.groestl512.digest (HashQuark.stages T s 1).val
            else T.skein512.digest (HashQuark.stages T s 1).val) ∧
      HashQuark.stages T s 5
        = (if uint512.and (HashQuark.stages T s 4) (uint512.ofNat 8) ≠ uint512.ofNat 0
            then T.blake512.digest (HashQuark.stages T s 4).val
            else T.bmw512.digest (HashQuark.stages T s 4).val) ∧
      HashQuark.stages T s 8
        = (if uint512.and (HashQuark.stages T s 7) (uint512.ofNat 8) ≠ uint512.ofNat 0
            then T.keccak512.digest (HashQuark.stages T s 7).val
            else T.jh512.digest (HashQuark.stages T s 7).val) := by
    simp only [HashQuark.stages, update_ite, uint512.read64_eq]
    simp only [Function.update_same, ne_eq, Fin.reduceEq, not_false_eq_true,
      Function.update_noteq, Sph512.digest]
    exact ⟨trivial, trivial, trivial⟩
  refine ⟨hv, ?_, uint512.and_mask_ne_zero_iff, ?_, ?_, ?_, ?_⟩
  · intro i
    have h2 : (8 : Nat) = 2 ^ 3 := by norm_num
    rw [hv, h2, Nat.testBit_two_pow]
    simp [eq_comm]
  · intro h k hk
    rw [uint512.and_mask_ne_zero_iff, uint512.and_mask_ne_zero_iff, hk]
  · rw [← hstages]
    exact hchain.1
  · rw [← hstages]
    exact hchain.2.1
  · rw [← hstages]
    exact hchain.2.2

set_option maxRecDepth 100000 in
/-- C18, at concrete inputs: the 512-bit values 8 and 12 agree on bit 3, and
take the same branch. -/
theorem HashQuark_mask_is_bit_3_witness :
    (leValue (uint512.ofNat 8).val).testBit 3 = (leValue (uint512.ofNat 12).val).testBit 3 ∧
    (uint512.and (uint512.ofNat 8) (uint512.ofNat 8) ≠ uint512.ofNat 0
      ↔ uint512.and (uint512.ofNat 12) (uint512.ofNat 8) ≠ uint512.ofNat 0) :=
  ⟨by decide,
    (HashQuark_mask_is_bit_3 toyTable (toySpan 3)).2.2.2.1 (uint512.ofNat 8) (uint512.ofNat 12)
      (by decide)⟩

/-! ## Zero digests of the scrypt dispatchers -/

/-- C21: `HashScrypt` returns the all-zero digest only when it took the
fallback path, calling the reference `scrypt_hash` on its input with cost
factor 1024, and that call itself gave the all-zero digest; when it makes no
call to `scrypt_hash`, so that the value returned comes from the optimised
path, that value is not all zero; and whenever the fallback path is taken
the value returned is the one `scrypt_hash` gave, zero or not, without any
check. The same holds of `HashScryptSquared` with cost factor 1048576. -/
theorem HashScrypt_zero_only_from_fallback (L : ScryptLib) (p : Span) :
    (((HashScrypt L p).1 = ZERO →
        Call.scrypt_hash p.data p.len 1024 ∈ (HashScrypt L p).2 ∧
          scrypt_hash L p.data p.len 1024 = ZERO) ∧
      ((∀ (q : Ptr) (len M : Nat), Call.scrypt_hash q len M ∉ (HashScrypt L p).2) →
        (HashScrypt L p).1 ≠ ZERO) ∧
      (Call.scrypt_hash p.data p.len 1024 ∈ (HashScrypt L p).2 →
        (HashScrypt L p).1 = scrypt_hash L p.data p.len 1024)) ∧
    (((HashScryptSquared L p).1 = ZERO →
        Call.scrypt_hash p.data p.len 1048576 ∈ (HashScryptSquared L p).2 ∧
          scrypt_hash L p.data p.len 1048576 = ZERO) ∧
      ((∀ (q : Ptr) (len M : Nat), Call.scrypt_hash q len M ∉ (HashScryptSquared L p).2) →
        (HashScryptSquared L p).1 ≠ ZERO) ∧
      (Call.scrypt_hash p.data p.len 1048576 ∈ (HashScryptSquared L p).2 →
        (HashScryptSquared L p).1 = scrypt_hash L p.data p.len 1048576)) := by
  constructor
  · by_cases h80 : p.len = 80
    · by_cases hf : (L.scryptHash ((Ptr.elem0 p.mem).read 80) (Vec.zero 32) 1024).1 = false
      · have e : HashScrypt L p
            = (scrypt_hash L p.data p.len 1024,
                [Call.scryptHash (Ptr.elem0 p.mem) 1024,
                  Call.LogPrintf
                    "Falling back to original implementation to generate normal scrypt hash\n",
                  Call.scrypt_hash p.data p.len 1024]) := by
          simp [HashScrypt, h80, hf]
        rw [e]
        simp
      · by_cases hz : (L.scryptHash ((Ptr.elem0 p.mem).read 80) (Vec.zero 32) 1024).2 = ZERO
        · have e : HashScrypt L p
              = (scrypt_hash L p.data p.len 1024,
                  [Call.scryptHash (Ptr.elem0 p.mem) 1024,
                    Call.LogPrintf
                      "Falling back to original implementation to generate normal scrypt hash\n",
                    Call.scrypt_hash p.data p.len 1024]) := by
            simp [HashScrypt, h80, hf, hz]
          rw [e]
          simp
        · have e : HashScrypt L p
              = ((L.scryptHash ((Ptr.elem0 p.mem).read 80) (Vec.zero 32) 1024).2,
                  [Call.scryptHash (Ptr.elem0 p.mem) 1024]) := by
            simp [HashScrypt, h80, hf, hz]
          rw [e]
          simp [hz]
    · have e : HashScrypt L p
          = (scrypt_hash L p.data p.len 1024,
              [Call.LogPrintf
                "Falling back to original implementation to generate normal scrypt hash\n",
                Call.scrypt_hash p.data p.len 1024]) := by
        simp [HashScrypt, h80]
      rw [e]
      simp
  · by_cases h80 : p.len = 80
    · by_cases hf : (L.scryptHash ((Ptr.elem0 p.mem).read 80) (Vec.zero 32) 1048576).1 = false
      · have e : HashScryptSquared L p
            = (scrypt_hash L p.data p.len 1048576,
                [Call.scryptHash (Ptr.elem0 p.mem) 1048576,
                  Call.LogPrintf
                    "Falling back to original implementation to generate scrypt² hash\n",
                  Call.scrypt_hash p.data p.len 1048576]) := by
          simp [HashScryptSquared, h80, hf]
        rw [e]
        simp
      · by_cases hz : (L.scryptHash ((Ptr.elem0 p.mem).read 80) (Vec.zero 32) 1048576).2 = ZERO
        · have e : HashScryptSquared L p
              = (scrypt_hash L p.data p.len 1048576,
                  [Call.scryptHash (Ptr.elem0 p.mem) 1048576,
                    Call.LogPrintf
                      "Falling back to original implementation to generate scrypt² hash\n",
                    Call.scrypt_hash p.data p.len 1048576]) := by
            simp [HashScryptSquared, h80, hf, hz]
          rw [e]
          simp
        · have e : HashScryptSquared L p
              = ((L.scryptHash ((Ptr.elem0 p.mem).read 80) (Vec.zero 32) 1048576).2,
                  [Call.scryptHash (Ptr.elem0 p.mem) 1048576]) := by
            simp [HashScryptSquared, h80, hf, hz]
          rw [e]
          simp [hz]
    · have e : HashScryptSquared L p
          = (scrypt_hash L p.data p.len 1048576,
              [Call.LogPrintf
                "Falling back to original implementation to generate scrypt² hash\n",
                Call.scrypt_hash p.data p.len 1048576]) := by
        simp [HashScryptSquared, h80]
      rw [e]
      simp

set_option maxRecDepth 100000 in
/-- C21, at concrete inputs: on an 80-byte range, a library whose optimised
path leaves the all-zero digest and whose reference `scrypt` outputs zero
bytes makes `HashScrypt` return the all-zero digest through the fallback;
and a library whose optimised path succeeds makes no `scrypt_hash` call and
returns a digest that is not all zero. -/
theorem HashScrypt_zero_only_from_fallback_witness :
    (HashScrypt toyScryptZero (toySpan 80)).1 = ZERO ∧
    (Call.scrypt_hash (toySpan 80).data (toySpan 80).len 1024
        ∈ (HashScrypt toyScryptZero (toySpan 80)).2 ∧
      scrypt_hash toyScryptZero (toySpan 80).data (toySpan 80).len 1024 = ZERO) ∧
    (∀ (q : Ptr) (len M : Nat),
      Call.scrypt_hash q len M ∉ (HashScrypt (toyScrypt true false) (toySpan 80)).2) ∧
    (HashScrypt (toyScrypt true false) (toySpan 80)).1 ≠ ZERO ∧
    (HashScrypt toyScryptZero (toySpan 80)).1
      = scrypt_hash toyScryptZero (toySpan 80).data (toySpan 80).len 1024 := by
  have h0 : (HashScrypt toyScryptZero (toySpan 80)).1 = ZERO := by decide
  have h80 : (toySpan 80).len = 80 := by decide
  have hok : ((toyScrypt true false).scryptHash ((Ptr.elem0 (toySpan 80).mem).read 80)
      (Vec.zero 32) 1024).1 = true := rfl
  have hnz : ((toyScrypt true false).scryptHash ((Ptr.elem0 (toySpan 80).mem).read 80)
      (Vec.zero 32) 1024).2 ≠ ZERO := by decide
  have hno : ∀ (q : Ptr) (len M : Nat),
      Call.scrypt_hash q len M ∉ (HashScrypt (toyScrypt true false) (toySpan 80)).2 := by
    intro q len M
    have e : HashScrypt (toyScrypt true false) (toySpan 80)
        = (((toyScrypt true false).scryptHash ((Ptr.elem0 (toySpan 80).mem).read 80)
              (Vec.zero 32) 1024).2,
            [Call.scryptHash (Ptr.elem0 (toySpan 80).mem) 1024]) := by
      simp only [HashScrypt, h80, ne_eq, not_true_eq_false, if_false, hok, hnz]
      rfl
    rw [e]
    simp
  have hz := (HashScrypt_zero_only_from_fallback toyScryptZero (toySpan 80)).1.1 h0
  exact ⟨h0, hz, hno,
    (HashScrypt_zero_only_from_fallback (toyScrypt true false) (toySpan 80)).1.2.1 hno,
    (HashScrypt_zero_only_from_fallback toyScryptZero (toySpan 80)).1.2.2 hz.1⟩

end Simplicity
